import Mathlib

/-!
# sg_write_long: a shallow embedding of `main` and its verified properties

`src/sg_write_long.c` is one straight-line `main`.  Its effects are calls into
the C library and into the sg3_utils library (`sg_lib.h`, `sg_cmds_basic.h`,
`sg_cmds_extra.h`), none of which is part of this source file.  The embedding
makes every such call explicit:

* the answers of the outside world are the fields of `Env`;
* the numeric constants of `sg_lib.h` are the fields of `SgLib`;
* every call `main` makes is recorded, in program order and together with the
  value it returned, as an `Event`; a run is a `Result`: the list of events
  and the value `main` returns.

C `int` values are `Int`; the arithmetic that can leave the `int` range
(`xfer_len - offset`, `-sg_fd`, `-res`) is reduced with `wrap_int`.  C strings
are `String` (one character per byte); byte buffers are `List Nat`.

The file has three parts: the definitions (the program, a concrete world and
the observations on a run), the lemmas on the shape of a run, and the claims.
-/

namespace SgWriteLong

/-! ## Constants -/

/-- Line 34: `#define MAX_XFER_LEN 10000`. -/
def MAX_XFER_LEN : Nat := 10000

/-- Line 38: `#define ME "sg_write_long: "`. -/
def ME : String := "sg_write_long: "

/-- Line 40: `#define EBUFF_SZ 256`. -/
def EBUFF_SZ : Nat := 256

/-- Line 31: `version_str`. -/
def version_str : String := "1.14 20070419"

/-- The constants of `sg_lib.h` that `main` uses.  The header is not part of
the source file, so their values are parameters.  -/
structure SgLib where
  SG_LIB_SYNTAX_ERROR : Int
  SG_LIB_FILE_ERROR : Int
  SG_LIB_CAT_OTHER : Int
  SG_LIB_CAT_NOT_READY : Int
  SG_LIB_CAT_UNIT_ATTENTION : Int
  SG_LIB_CAT_ABORTED_COMMAND : Int
  SG_LIB_CAT_INVALID_OP : Int
  SG_LIB_CAT_ILLEGAL_REQ : Int
  SG_LIB_CAT_ILLEGAL_REQ_WITH_INFO : Int
  /-- Width in bits of `unsigned long` (the cast at line 252). -/
  ULONG_BITS : Nat
  deriving Repr

/-- The `case` labels of the `switch (res)` at lines 255-285 are pairwise
different (C rejects a `switch` with a repeated label). -/
def SgLib.labels_distinct (K : SgLib) : Prop :=
  [0, K.SG_LIB_CAT_NOT_READY, K.SG_LIB_CAT_UNIT_ATTENTION, K.SG_LIB_CAT_ABORTED_COMMAND,
    K.SG_LIB_CAT_INVALID_OP, K.SG_LIB_CAT_ILLEGAL_REQ, K.SG_LIB_CAT_ILLEGAL_REQ_WITH_INFO].Nodup

instance (K : SgLib) : Decidable K.labels_distinct := by
  unfold SgLib.labels_distinct; infer_instance

/-! ## Machine integers and formatting -/

/-- Two's complement reduction of an integer to the range of a 32-bit `int`. -/
def wrap_int (x : Int) : Int := (x + 2 ^ 31) % 2 ^ 32 - 2 ^ 31

/-- The value is representable as a 32-bit `int`. -/
def in_int_range (x : Int) : Prop := -(2 ^ 31) ≤ x ∧ x < 2 ^ 31

instance (x : Int) : Decidable (in_int_range x) := by
  unfold in_int_range; infer_instance

/-- C subtraction on `int`. -/
def int_sub (a b : Int) : Int := wrap_int (a - b)

/-- C unary minus on `int`. -/
def int_neg (a : Int) : Int := wrap_int (-a)

/-- Conversion `%d` of printf. -/
def fmt_d (x : Int) : String := toString x

/-- Conversion `%x` of printf applied to a non-negative value. -/
def fmt_x_nat (n : Nat) : String := String.mk (Nat.toDigits 16 n)

/-- Conversion `%x` of printf applied to an `int`: the value is read as
`unsigned int`. -/
def fmt_x (x : Int) : String := fmt_x_nat (x % 2 ^ 32).toNat

/-- Conversion `PRIu64` of printf. -/
def fmt_u64 (n : Nat) : String := toString n

/-- The needle occurs in the text as a contiguous run of characters. -/
def text_contains (text needle : String) : Prop := needle.data <:+: text.data

instance (text needle : String) : Decidable (text_contains text needle) := by
  unfold text_contains; infer_instance

/-! ## The outside world -/

/-- The arguments of `sg_ll_write_long10` and `sg_ll_write_long16`, in the
order of the call, the out-parameter `&offset` apart.  `data_out` is the
buffer `writeLongBuff` points to (`none` for the NULL pointer). -/
structure WriteLongArgs where
  sg_fd : Int
  cor_dis : Int
  wr_uncor : Int
  pblock : Int
  llba : Nat
  data_out : Option (List Nat)
  xfer_len : Int
  noisy : Int
  verbose : Int
  deriving DecidableEq, Repr

/-- The answers of everything `main` calls. -/
structure Env where
  /-- Function `sg_get_num(optarg)`; `-1` is the error marker. -/
  sg_get_num : String → Int
  /-- Function `sg_get_llnum(optarg)`; `-1` is the error marker. -/
  sg_get_llnum : String → Int
  /-- Function `safe_strerror(errnum)`. -/
  safe_strerror : Int → String
  /-- Function `sg_cmds_open_device(device_name, read_only, verbose)`. -/
  sg_cmds_open_device : String → Int → Int → Int
  /-- Whether `malloc(size)` returns a non-NULL pointer. -/
  malloc : Nat → Bool
  /-- System call `open(file_name, O_RDONLY)`. -/
  open_file : String → Int
  /-- System call `read(fd, buf, count)`: `none` is the error return `-1`; `some d` is
  a successful read that stored the bytes `d` at the start of `buf` and
  returned `d.length`. -/
  read : Int → Int → Option (List Nat)
  /-- Function `sg_ll_write_long16(...)`: the value returned and the value the
  variable `offset` holds after the call. -/
  sg_ll_write_long16 : WriteLongArgs → Int × Int
  /-- Function `sg_ll_write_long10(...)`: as for the 16 byte variant. -/
  sg_ll_write_long10 : WriteLongArgs → Int × Int
  /-- Function `sg_cmds_close_device(sg_fd)`. -/
  sg_cmds_close_device : Int → Int

/-- One call made by `main`, with the value it returned. -/
inductive Event where
  /-- A call `fprintf(stderr, ...)` with the formatted text. -/
  | stderr (text : String)
  /-- A call `perror(ebuff)`. -/
  | perror (ebuff : String)
  | sg_cmds_open_device (device_name : String) (read_only verbose : Int) (ret : Int)
  | malloc (size : Nat) (ok : Bool)
  | memset (byte : Nat) (size : Nat)
  | open_file (file_name : String) (ret : Int)
  | read (fd : Int) (count : Int) (ret : Option (List Nat))
  | close (fd : Int)
  | sg_ll_write_long16 (args : WriteLongArgs) (ret offset : Int)
  | sg_ll_write_long10 (args : WriteLongArgs) (ret offset : Int)
  | free
  | sg_cmds_close_device (sg_fd : Int) (ret : Int)
  deriving DecidableEq, Repr

/-- A finished run of `main`: what it did and what it returned. -/
structure Result where
  trace : List Event
  status : Int
  deriving DecidableEq, Repr

/-- The local variables of `main` that the option loop sets, with the
initial values of lines 91-107. -/
structure Vars where
  xfer_len : Int := 520
  cor_dis : Int := 0
  pblock : Int := 0
  wr_uncor : Int := 0
  do_16 : Int := 0
  llba : Nat := 0
  verbose : Int := 0
  device_name : String := ""
  file_name : String := ""
  deriving DecidableEq, Repr

/-! ## The program -/

/-- Lines 56-84: the text `usage()` prints to stderr. -/
def usage_text : String :=
  "Usage: " ++
  "sg_write_long [--16] [--cor_dis] [--help] [--in=IF] " ++
  "[--lba=LBA]\n" ++
  "                     [--pblock] [--verbose] [--version] " ++
  "[--wr_uncor]\n" ++
  "                     [--xfer_len=BTL] DEVICE\n" ++
  "  where:\n" ++
  "    --16|-S              do WRITE LONG(16) (default: 10)\n" ++
  "    --cor_dis|-c         set correction disabled bit\n" ++
  "    --help|-h            print out usage message\n" ++
  "    --in=IF|-i IF        input from file called IF (default: " ++
  "use\n" ++
  "                         0xff bytes as fill)\n" ++
  "    --lba=LBA|-l LBA     logical block address " ++
  "(default: 0)\n" ++
  "    --pblock|-p          physical block (default: logical " ++
  "block)\n" ++
  "    --verbose|-v         increase verbosity\n" ++
  "    --version|-V         print version string then exit\n" ++
  "    --wr_uncor|-w        set an uncorrectable error (no " ++
  "data transferred)\n" ++
  "    --xfer_len=BTL|-x BTL    byte transfer length (< 10000) " ++
  "(default:\n" ++
  "                             520 bytes)\n\n" ++
  "Performs a SCSI WRITE LONG (10 or 16) command\n"

/-- Lines 56-84: `usage()`. -/
def usage : List Event := [Event.stderr usage_text]

/-- Lines 108-162: the option loop.  The list holds what the successive
calls of `getopt_long` return before it returns `-1`: the option character
and `optarg`.  The result is the variables after the loop, or the run when
the loop returns from `main`.  The `strncpy` of line 125 copies at most 256
characters and `file_name` holds these; for an `optarg` of 256 characters or
more the array is left without a terminator and what a later reader of the
array sees beyond them is not defined by the program, so the name handed to
`open` is then only known to start with these characters.  The run depends
on `file_name` through `file_name[0]` and the comparison with "-" only.  The
cast of line 133 reduces modulo `2 ^ 64`. -/
def main_options (E : Env) (K : SgLib) : List (Char × String) → Vars → Except Result Vars
  | [], v => .ok v
  | (c, optarg) :: rest, v =>
    if c = 'c' then main_options E K rest { v with cor_dis := 1 }
    else if c = 'h' ∨ c = '?' then .error ⟨usage, 0⟩
    else if c = 'i' then main_options E K rest { v with file_name := optarg.take 256 }
    else if c = 'l' then
      let ll := E.sg_get_llnum optarg
      if -1 = ll then .error ⟨[Event.stderr "bad argument to '--lba'\n"], K.SG_LIB_SYNTAX_ERROR⟩
      else main_options E K rest { v with llba := (ll % 2 ^ 64).toNat }
    else if c = 'p' then main_options E K rest { v with pblock := 1 }
    else if c = 'S' then main_options E K rest { v with do_16 := 1 }
    else if c = 'v' then main_options E K rest { v with verbose := v.verbose + 1 }
    else if c = 'V' then .error ⟨[Event.stderr (ME ++ "version: " ++ version_str ++ "\n")], 0⟩
    else if c = 'w' then main_options E K rest { v with wr_uncor := 1 }
    else if c = 'x' then
      let xfer_len := E.sg_get_num optarg
      if -1 = xfer_len then
        .error ⟨[Event.stderr "bad argument to '--xfer_len'\n"], K.SG_LIB_SYNTAX_ERROR⟩
      else main_options E K rest { v with xfer_len := xfer_len }
    else
      .error ⟨[Event.stderr ("unrecognised option code 0x" ++ fmt_x_nat c.toNat ++ " ??\n")] ++ usage,
        K.SG_LIB_SYNTAX_ERROR⟩

/-- Lines 163-176: the arguments left after the options,
`argv[optind..argc)`.  The first one becomes the device name (at most 255
characters, line 165) when none is set; any argument left after that is
reported and `main` returns. -/
def main_args (K : SgLib) (v : Vars) : List String → Except Result Vars
  | [] => .ok v
  | a :: rest =>
    let v1 := if v.device_name = "" then { v with device_name := a.take 255 } else v
    let rest1 := if v.device_name = "" then rest else a :: rest
    if rest1 = [] then .ok v1
    else .error ⟨rest1.map (fun s => Event.stderr ("Unexpected extra argument: " ++ s ++ "\n")) ++ usage,
      K.SG_LIB_SYNTAX_ERROR⟩

/-- Lines 287-296: the label `err_out` and the return of `main`.  `rawp` says
whether the pointer is non-NULL, `ret` is the variable of that name. -/
def err_out (E : Env) (K : SgLib) (sg_fd : Int) (rawp : Bool) (ret : Int) : Result :=
  let t1 := if rawp then [Event.free] else []
  let res := E.sg_cmds_close_device sg_fd
  let t2 := t1 ++ [Event.sg_cmds_close_device sg_fd res]
  if res < 0 then
    let t3 := t2 ++ [Event.stderr ("close error: " ++ E.safe_strerror (int_neg res) ++ "\n")]
    if 0 = ret then ⟨t3, K.SG_LIB_FILE_ERROR⟩
    else ⟨t3, if ret ≥ 0 then ret else K.SG_LIB_CAT_OTHER⟩
  else ⟨t2, if ret ≥ 0 then ret else K.SG_LIB_CAT_OTHER⟩

/-- Lines 255-285: the `switch (res)` that reports the outcome of the
command. -/
def report (K : SgLib) (res : Int) (ten_or : String) (xfer_len offset : Int) : List Event :=
  if res = 0 then []
  else if res = K.SG_LIB_CAT_NOT_READY then
    [Event.stderr ("  SCSI WRITE LONG (" ++ ten_or ++ ") failed, device not ready\n")]
  else if res = K.SG_LIB_CAT_UNIT_ATTENTION then
    [Event.stderr ("  SCSI WRITE LONG (" ++ ten_or ++ "), unit attention\n")]
  else if res = K.SG_LIB_CAT_ABORTED_COMMAND then
    [Event.stderr ("  SCSI WRITE LONG (" ++ ten_or ++ "), aborted command\n")]
  else if res = K.SG_LIB_CAT_INVALID_OP then
    [Event.stderr ("  SCSI WRITE LONG (" ++ ten_or ++ ") command not supported\n")]
  else if res = K.SG_LIB_CAT_ILLEGAL_REQ then
    [Event.stderr ("  SCSI WRITE LONG (" ++ ten_or ++ ") command, bad field in cdb\n")]
  else if res = K.SG_LIB_CAT_ILLEGAL_REQ_WITH_INFO then
    [Event.stderr ("<<< device indicates 'xfer_len' should be " ++
      fmt_d (int_sub xfer_len offset) ++ " >>>\n")]
  else
    [Event.stderr ("  SCSI WRITE LONG (" ++ ten_or ++ ") command error\n")]

/-- Lines 247-253: the one call of the command, through the entry point that
`do_16` selects: the event, the value returned (`res`) and the value of
`offset` after the call. -/
def write_long_call (E : Env) (K : SgLib) (v : Vars) (sg_fd : Int)
    (writeLongBuff : Option (List Nat)) (xfer_len : Int) : Event × Int × Int :=
  if v.do_16 ≠ 0 then
    let a : WriteLongArgs := ⟨sg_fd, v.cor_dis, v.wr_uncor, v.pblock, v.llba, writeLongBuff,
      xfer_len, 1, v.verbose⟩
    let r := E.sg_ll_write_long16 a
    (Event.sg_ll_write_long16 a r.1 r.2, r.1, r.2)
  else
    let a : WriteLongArgs := ⟨sg_fd, v.cor_dis, v.wr_uncor, v.pblock,
      v.llba % 2 ^ K.ULONG_BITS, writeLongBuff, xfer_len, 1, v.verbose⟩
    let r := E.sg_ll_write_long10 a
    (Event.sg_ll_write_long10 a r.1 r.2, r.1, r.2)

/-- Lines 240-296: the verbose line, the choice of the entry point, the one
call, the report and the way out.  `writeLongBuff` is the buffer the pointer
of that name designates (`none` for NULL; `rawp` is the same pointer). -/
def dispatch (E : Env) (K : SgLib) (v : Vars) (sg_fd : Int) (writeLongBuff : Option (List Nat))
    (xfer_len : Int) : Result :=
  let t1 :=
    if v.verbose ≠ 0 then
      [Event.stderr (ME ++ "issue write long to device " ++ v.device_name ++
        "\n\t\txfer_len= " ++ fmt_d xfer_len ++ " (0x" ++ fmt_x xfer_len ++ "), lba=" ++
        fmt_u64 v.llba ++ " (0x" ++ fmt_x_nat v.llba ++ ")\n    cor_dis=" ++ fmt_d v.cor_dis ++
        ", wr_uncor=" ++ fmt_d v.wr_uncor ++ ", pblock=" ++ fmt_d v.pblock ++ "\n")]
    else []
  let ten_or := if v.do_16 ≠ 0 then "16" else "10"
  let call := write_long_call E K v sg_fd writeLongBuff xfer_len
  let res := call.2.1
  let offset := call.2.2
  let ret := res
  let out := err_out E K sg_fd writeLongBuff.isSome ret
  ⟨t1 ++ [call.1] ++ report K res ten_or xfer_len offset ++ out.trace, out.status⟩

/-- Prefix a run with the events that came before it. -/
def Result.after (t : List Event) (r : Result) : Result := ⟨t ++ r.trace, r.status⟩

/-- Lines 222-238: the `read` into the buffer, then `dispatch`.  A
successful read stores the bytes it delivers at the start of the buffer.
When the read fails, control goes to `err_out` with `ret` still at its
initial value 1 (line 104) and `rawp` non-NULL. -/
def read_input (E : Env) (K : SgLib) (v : Vars) (sg_fd xfer_len : Int) (got_stdin : Bool)
    (infd : Int) (buff : List Nat) : Result :=
  let r := E.read infd xfer_len
  let t := [Event.read infd xfer_len r]
  match r with
  | none =>
    (err_out E K sg_fd true 1).after
      (t ++ [Event.perror ((ME ++ "couldn't read from " ++ v.file_name).take (EBUFF_SZ - 1))] ++
        (if got_stdin then [] else [Event.close infd]))
  | some d =>
    let res : Int := d.length
    let buff1 := d ++ buff.drop d.length
    let t1 :=
      if res < xfer_len then
        [Event.stderr ("tried to read " ++ fmt_d xfer_len ++ " bytes from " ++ v.file_name ++
           ", got " ++ fmt_d res ++ " bytes\n"),
         Event.stderr "pad with 0xff bytes and continue\n"]
      else []
    let t2 := if got_stdin then [] else [Event.close infd]
    (dispatch E K v sg_fd (some buff1) xfer_len).after (t ++ t1 ++ t2)

/-- Lines 198-239: the payload buffer, then `dispatch`.  With `wr_uncor`
set there is no buffer (`writeLongBuff` and `rawp` stay NULL).  Otherwise the
buffer of `MAX_XFER_LEN` bytes is allocated and filled with `0xff`; a failed
`malloc` goes to `err_out` with `ret = SG_LIB_FILE_ERROR`, a failed `open` of
the input file goes there with `ret` at its initial value 1 (line 104). -/
def prepare (E : Env) (K : SgLib) (v : Vars) (sg_fd xfer_len : Int) : Result :=
  if v.wr_uncor ≠ 0 then
    let t :=
      if v.file_name ≠ "" then
        [Event.stderr ">>> warning: when '--wr_uncor' given '-in=' is ignored\n"]
      else []
    (dispatch E K v sg_fd none xfer_len).after t
  else
    let ok := E.malloc MAX_XFER_LEN
    if ok = false then
      (err_out E K sg_fd false K.SG_LIB_FILE_ERROR).after
        [Event.malloc MAX_XFER_LEN false, Event.stderr (ME ++ "out of memory\n")]
    else
      let buff := List.replicate MAX_XFER_LEN 0xff
      let t1 := [Event.malloc MAX_XFER_LEN true, Event.memset 0xff MAX_XFER_LEN]
      if v.file_name ≠ "" then
        if v.file_name = "-" then
          (read_input E K v sg_fd xfer_len true 0 buff).after t1
        else
          let infd := E.open_file v.file_name
          let t2 := t1 ++ [Event.open_file v.file_name infd]
          if infd < 0 then
            (err_out E K sg_fd true 1).after
              (t2 ++ [Event.perror
                ((ME ++ "could not open " ++ v.file_name ++ " for reading").take (EBUFF_SZ - 1))])
          else
            (read_input E K v sg_fd xfer_len false infd buff).after t2
      else
        (dispatch E K v sg_fd (some buff) xfer_len).after t1

/-- Lines 178-197, then `prepare`: the checks of the device name and of the
transfer length, and the opening of the device. -/
def main_body (E : Env) (K : SgLib) (v : Vars) : Result :=
  if v.device_name = "" then
    ⟨[Event.stderr "missing device name!\n"] ++ usage, K.SG_LIB_SYNTAX_ERROR⟩
  else
    let xfer_len := if v.wr_uncor ≠ 0 then 0 else v.xfer_len
    if v.wr_uncor = 0 ∧ xfer_len ≥ MAX_XFER_LEN then
      ⟨[Event.stderr ("xfer_len (" ++ fmt_d xfer_len ++ ") is out of range ( < " ++
          fmt_d MAX_XFER_LEN ++ ")\n")] ++ usage, K.SG_LIB_SYNTAX_ERROR⟩
    else
      let sg_fd := E.sg_cmds_open_device v.device_name 0 v.verbose
      let t := [Event.sg_cmds_open_device v.device_name 0 v.verbose sg_fd]
      if sg_fd < 0 then
        ⟨t ++ [Event.stderr (ME ++ "open error: " ++ v.device_name ++ ": " ++
            E.safe_strerror (int_neg sg_fd) ++ "\n")], K.SG_LIB_FILE_ERROR⟩
      else
        (prepare E K v sg_fd xfer_len).after t

/-- Lines 86-296: `main`.  `opts` is what `getopt_long` returns call after
call, `args` is `argv[optind..argc)` when it has returned `-1`. -/
def main (E : Env) (K : SgLib) (opts : List (Char × String)) (args : List String) : Result :=
  match main_options E K opts {} with
  | .error r => r
  | .ok v =>
    match main_args K v args with
    | .error r => r
    | .ok v1 => main_body E K v1

/-! ## A concrete world -/

/-- The values these constants have in the `sg_lib.h` of sg3_utils, on a
platform with a 64-bit `unsigned long`; used for the concrete runs. -/
def K0 : SgLib where
  SG_LIB_SYNTAX_ERROR := 1
  SG_LIB_FILE_ERROR := 15
  SG_LIB_CAT_OTHER := 99
  SG_LIB_CAT_NOT_READY := 2
  SG_LIB_CAT_UNIT_ATTENTION := 6
  SG_LIB_CAT_ABORTED_COMMAND := 11
  SG_LIB_CAT_INVALID_OP := 9
  SG_LIB_CAT_ILLEGAL_REQ := 5
  SG_LIB_CAT_ILLEGAL_REQ_WITH_INFO := 17
  ULONG_BITS := 64

/-- A world in which the device opens as descriptor 3, the allocation
succeeds, the input file opens as descriptor 4 and holds the bytes `file`, a
read with a count of 0 or more delivers the first `count` bytes of it and a
read with a negative count fails, the command returns `res` and leaves `off`
in `offset`, and the close returns `cl`. -/
def E0 (num : Int) (file : List Nat) (res off cl : Int) : Env where
  sg_get_num := fun _ => num
  sg_get_llnum := fun _ => 0
  safe_strerror := fun _ => "error"
  sg_cmds_open_device := fun _ _ _ => 3
  malloc := fun _ => true
  open_file := fun _ => 4
  read := fun _ count => if count < 0 then none else some (file.take count.toNat)
  sg_ll_write_long16 := fun _ => (res, off)
  sg_ll_write_long10 := fun _ => (res, off)
  sg_cmds_close_device := fun _ => cl

/-! ## Observations on a run -/

/-- The event is a call of one of the two WRITE LONG entry points. -/
def Event.is_write_long : Event → Bool
  | .sg_ll_write_long16 _ _ _ => true
  | .sg_ll_write_long10 _ _ _ => true
  | _ => false

/-- The event is a call of `sg_cmds_close_device`. -/
def Event.is_close_device : Event → Bool
  | .sg_cmds_close_device _ _ => true
  | _ => false

/-- The event is a call of `sg_cmds_open_device` that returned a handle. -/
def Event.is_open_device_ok : Event → Bool
  | .sg_cmds_open_device _ _ _ ret => decide (0 ≤ ret)
  | _ => false

/-- The event touches the input file: `open` or `read`. -/
def Event.is_input_file : Event → Bool
  | .open_file _ _ => true
  | .read _ _ _ => true
  | _ => false

/-- The event is an allocation of the payload buffer. -/
def Event.is_malloc : Event → Bool
  | .malloc _ _ => true
  | _ => false

/-- The calls of the WRITE LONG entry points in a trace, in order. -/
def write_long_calls (t : List Event) : List Event := t.filter Event.is_write_long

/-- The payload of a WRITE LONG call: the first `xfer_len` bytes of the
buffer handed over (nothing for the NULL pointer). -/
def WriteLongArgs.payload (a : WriteLongArgs) : List Nat :=
  (a.data_out.getD []).take a.xfer_len.toNat

/-- The event belongs to the preparation of the payload (lines 198-239): a
message, the allocation and filling of the buffer, or a call on the input
file. -/
def Event.is_preparation : Event → Bool
  | .stderr _ => true
  | .perror _ => true
  | .malloc _ _ => true
  | .memset _ _ => true
  | .open_file _ _ => true
  | .read _ _ _ => true
  | .close _ => true
  | _ => false

/-- The event is a failed `open` or a failed `read` of the input file. -/
def Event.is_input_failure : Event → Bool
  | .open_file _ ret => decide (ret < 0)
  | .read _ _ ret => ret.isNone
  | _ => false

/-- The event is a failed step of the preparation of the payload: a failed
allocation, or a failed `open` or `read` of the input file. -/
def Event.is_prepare_failure : Event → Bool
  | .malloc _ ok => !ok
  | e => e.is_input_failure

/-- The transfer length after lines 183-184. -/
def xfer_len_used (v : Vars) : Int := if v.wr_uncor ≠ 0 then 0 else v.xfer_len

/-- The event is a call of `sg_cmds_open_device`. -/
def Event.is_open_device : Event → Bool
  | .sg_cmds_open_device _ _ _ _ => true
  | _ => false

/-- The event is a message: `fprintf(stderr, ...)`. -/
def Event.is_stderr : Event → Bool
  | .stderr _ => true
  | _ => false

/-- The report of the outcome of the command in a trace: the message on
stderr that directly follows the first WRITE LONG call, if there is one. -/
def outcome_diagnostic : List Event → Option String
  | [] => none
  | e :: rest =>
    if e.is_write_long = true then
      match rest with
      | Event.stderr s :: _ => some s
      | _ => none
    else outcome_diagnostic rest

/-- How many times a trace calls `sg_cmds_close_device`. -/
def close_device_count (t : List Event) : Nat := t.countP Event.is_close_device

/-- The trace has a call of `sg_cmds_open_device` that returned a handle. -/
def device_opened (t : List Event) : Prop := ∃ e ∈ t, e.is_open_device_ok = true

instance (t : List Event) : Decidable (device_opened t) := by
  unfold device_opened; infer_instance

/-! ## The shape of a run -/

theorem after_trace (t : List Event) (r : Result) : (r.after t).trace = t ++ r.trace := rfl

theorem after_status (t : List Event) (r : Result) : (r.after t).status = r.status := rfl

theorem after_after (s t : List Event) (r : Result) : (r.after t).after s = r.after (s ++ t) := by
  simp [Result.after]

/-- The report is empty or one line on stderr. -/
theorem report_cases (K : SgLib) (res : Int) (ten_or : String) (n off : Int) :
    report K res ten_or n off = [] ∨ ∃ s, report K res ten_or n off = [Event.stderr s] := by
  unfold report
  split_ifs <;> simp

theorem filter_report (p : Event → Bool) (hs : ∀ s, p (Event.stderr s) = false) (K : SgLib)
    (res : Int) (ten_or : String) (n off : Int) : (report K res ten_or n off).filter p = [] := by
  rcases report_cases K res ten_or n off with h | ⟨s, h⟩ <;> simp [h, hs]

theorem err_out_trace (E : Env) (K : SgLib) (fd : Int) (rawp : Bool) (ret : Int) :
    (err_out E K fd rawp ret).trace =
      (if rawp then [Event.free] else []) ++
        [Event.sg_cmds_close_device fd (E.sg_cmds_close_device fd)] ++
        (if E.sg_cmds_close_device fd < 0 then
          [Event.stderr ("close error: " ++ E.safe_strerror (int_neg (E.sg_cmds_close_device fd)) ++
            "\n")]
        else []) := by
  have h0 : ∀ x : Int, x ≠ 0 → ¬ (0 = x) := fun x h h2 => h h2.symm
  by_cases hc : E.sg_cmds_close_device fd < 0 <;> rcases eq_or_ne ret 0 with rfl | hr <;>
    cases rawp <;> simp [err_out, hc, h0 _, *]

theorem err_out_status (E : Env) (K : SgLib) (fd : Int) (rawp : Bool) (ret : Int) :
    (err_out E K fd rawp ret).status =
      if E.sg_cmds_close_device fd < 0 ∧ ret = 0 then K.SG_LIB_FILE_ERROR
      else if 0 ≤ ret then ret else K.SG_LIB_CAT_OTHER := by
  by_cases hc : E.sg_cmds_close_device fd < 0
  · by_cases hr : ret = 0
    · subst hr; simp [err_out, hc]
    · have hr2 : ¬ (0 = ret) := fun h => hr h.symm
      simp [err_out, hc, hr, hr2]
  · simp [err_out, hc]

theorem filter_err_out (p : Event → Bool) (hs : ∀ s, p (Event.stderr s) = false)
    (hf : p Event.free = false) (E : Env) (K : SgLib) (fd : Int) (rawp : Bool) (ret : Int) :
    (err_out E K fd rawp ret).trace.filter p =
      [Event.sg_cmds_close_device fd (E.sg_cmds_close_device fd)].filter p := by
  rw [err_out_trace]
  split_ifs <;> simp [List.filter_cons, hs, hf]

theorem dispatch_status (E : Env) (K : SgLib) (v : Vars) (fd : Int) (b : Option (List Nat))
    (n : Int) :
    (dispatch E K v fd b n).status =
      (err_out E K fd b.isSome (write_long_call E K v fd b n).2.1).status := rfl

theorem filter_dispatch (p : Event → Bool) (hs : ∀ s, p (Event.stderr s) = false)
    (hf : p Event.free = false) (E : Env) (K : SgLib) (v : Vars) (fd : Int)
    (b : Option (List Nat)) (n : Int) :
    (dispatch E K v fd b n).trace.filter p =
      [(write_long_call E K v fd b n).1].filter p ++
        [Event.sg_cmds_close_device fd (E.sg_cmds_close_device fd)].filter p := by
  simp only [dispatch, List.filter_append, filter_report p hs, filter_err_out p hs hf]
  split_ifs <;> simp [List.filter_cons, hs]

theorem is_write_long_call (E : Env) (K : SgLib) (v : Vars) (fd : Int) (b : Option (List Nat))
    (n : Int) : (write_long_call E K v fd b n).1.is_write_long = true := by
  unfold write_long_call
  split_ifs <;> rfl

theorem write_long_calls_dispatch (E : Env) (K : SgLib) (v : Vars) (fd : Int)
    (b : Option (List Nat)) (n : Int) :
    write_long_calls (dispatch E K v fd b n).trace = [(write_long_call E K v fd b n).1] := by
  unfold write_long_calls
  rw [filter_dispatch _ (fun _ => rfl) rfl]
  simp only [List.filter_cons, is_write_long_call, if_true, List.filter_nil]
  simp [Event.is_write_long]

theorem write_long_calls_err_out (E : Env) (K : SgLib) (fd : Int) (rawp : Bool) (ret : Int) :
    write_long_calls (err_out E K fd rawp ret).trace = [] := by
  unfold write_long_calls
  rw [filter_err_out _ (fun _ => rfl) rfl]
  simp [List.filter_cons, Event.is_write_long]

theorem write_long_calls_append (s t : List Event) :
    write_long_calls (s ++ t) = write_long_calls s ++ write_long_calls t := by
  simp [write_long_calls]

theorem write_long_calls_cons (e : Event) (t : List Event) :
    write_long_calls (e :: t) =
      if e.is_write_long = true then e :: write_long_calls t else write_long_calls t := by
  simp [write_long_calls, List.filter_cons]

theorem write_long_calls_nil : write_long_calls [] = [] := rfl

theorem mem_write_long_calls (e : Event) (t : List Event) :
    e ∈ write_long_calls t ↔ e ∈ t ∧ e.is_write_long = true := by
  simp [write_long_calls]

theorem prepare_failure_of_input_failure (e : Event) (h : e.is_input_failure = true) :
    e.is_prepare_failure = true := by
  cases e <;> first | exact h | simp [Event.is_input_failure] at h

/-- The ways through lines 222-238: the read fails and control goes to
`err_out` with `ret = 1`, or the command is dispatched. -/
theorem read_input_paths (E : Env) (K : SgLib) (v : Vars) (fd n : Int) (gs : Bool) (infd : Int)
    (buff : List Nat) :
    (∃ pre, read_input E K v fd n gs infd buff = (err_out E K fd true 1).after pre ∧
        (∀ e ∈ pre, e.is_preparation = true) ∧ ∃ e ∈ pre, e.is_input_failure = true) ∨
      (∃ pre b, read_input E K v fd n gs infd buff = (dispatch E K v fd (some b) n).after pre ∧
        (∀ e ∈ pre, e.is_preparation = true) ∧ ∀ e ∈ pre, e.is_prepare_failure = false) := by
  unfold read_input
  cases hr : E.read infd n with
  | none =>
    left
    refine ⟨_, rfl, ?_, Event.read infd n none, by simp, rfl⟩
    cases gs <;> simp [Event.is_preparation]
  | some d =>
    right
    refine ⟨_, _, rfl, ?_, ?_⟩ <;> cases gs <;> split_ifs <;>
      simp [Event.is_preparation, Event.is_prepare_failure, Event.is_input_failure]

/-- The ways through lines 198-239: a step fails and control goes to
`err_out`, or the command is dispatched. -/
theorem prepare_paths (E : Env) (K : SgLib) (v : Vars) (fd n : Int) :
    (∃ pre rawp ret, prepare E K v fd n = (err_out E K fd rawp ret).after pre ∧
        (∀ e ∈ pre, e.is_preparation = true) ∧ (∃ e ∈ pre, e.is_prepare_failure = true) ∧
        (ret = 1 ∨ (ret = K.SG_LIB_FILE_ERROR ∧ ∀ e ∈ pre, e.is_input_failure = false))) ∨
      (∃ pre b, prepare E K v fd n = (dispatch E K v fd b n).after pre ∧
        (∀ e ∈ pre, e.is_preparation = true) ∧ ∀ e ∈ pre, e.is_prepare_failure = false) := by
  unfold prepare
  by_cases hw : v.wr_uncor ≠ 0
  · right
    rw [if_pos hw]
    refine ⟨_, _, rfl, ?_, ?_⟩ <;> split_ifs <;>
      simp [Event.is_preparation, Event.is_prepare_failure, Event.is_input_failure]
  · rw [if_neg hw]
    simp only []
    by_cases hm : E.malloc MAX_XFER_LEN = false
    · left
      rw [if_pos hm]
      refine ⟨_, _, _, rfl, ?_, ⟨Event.malloc MAX_XFER_LEN false, by simp, rfl⟩, Or.inr ⟨rfl, ?_⟩⟩
        <;> simp [Event.is_preparation, Event.is_input_failure]
    · rw [if_neg hm]
      by_cases hf : v.file_name ≠ ""
      · rw [if_pos hf]
        by_cases hs : v.file_name = "-"
        · rw [if_pos hs]
          rcases read_input_paths E K v fd n true 0 (List.replicate MAX_XFER_LEN 0xff) with
            ⟨pre, h, hp, e, he, hfail⟩ | ⟨pre, b, h, hp, hq⟩
          · left
            refine ⟨_, _, _, by rw [h, after_after], ?_, ⟨e, by simp [he], ?_⟩, Or.inl rfl⟩
            · simpa [Event.is_preparation] using hp
            · exact prepare_failure_of_input_failure e hfail
          · right
            refine ⟨_, _, by rw [h, after_after], ?_, ?_⟩
            · simpa [Event.is_preparation] using hp
            · simpa [Event.is_prepare_failure, Event.is_input_failure] using hq
        · rw [if_neg hs]
          by_cases ho : E.open_file v.file_name < 0
          · left
            rw [if_pos ho]
            refine ⟨_, _, _, rfl, ?_, ⟨Event.open_file v.file_name (E.open_file v.file_name),
              by simp, by simp [Event.is_prepare_failure, Event.is_input_failure, ho]⟩, Or.inl rfl⟩
            simp [Event.is_preparation]
          · rw [if_neg ho]
            rcases read_input_paths E K v fd n false (E.open_file v.file_name)
                (List.replicate MAX_XFER_LEN 0xff) with
              ⟨pre, h, hp, e, he, hfail⟩ | ⟨pre, b, h, hp, hq⟩
            · left
              refine ⟨_, _, _, by rw [h, after_after], ?_, ⟨e, by simp [he], ?_⟩, Or.inl rfl⟩
              · simpa [Event.is_preparation] using hp
              · exact prepare_failure_of_input_failure e hfail
            · right
              refine ⟨_, _, by rw [h, after_after], ?_, ?_⟩
              · simpa [Event.is_preparation] using hp
              · simpa [Event.is_prepare_failure, Event.is_input_failure, ho] using hq
      · right
        rw [if_neg hf]
        refine ⟨_, _, rfl, ?_, ?_⟩ <;>
          simp [Event.is_preparation, Event.is_prepare_failure, Event.is_input_failure, hm]

/-- The ways through lines 178-296: a syntax error, a failed open of the
device, a failed preparation that goes to `err_out`, or the dispatch of the
command. -/
theorem main_body_paths (E : Env) (K : SgLib) (v : Vars) :
    (∃ t, main_body E K v = ⟨t, K.SG_LIB_SYNTAX_ERROR⟩ ∧ (∀ e ∈ t, e.is_stderr = true) ∧
        (v.device_name = "" ∨ (v.wr_uncor = 0 ∧ (MAX_XFER_LEN : Int) ≤ v.xfer_len))) ∨
      (v.device_name ≠ "" ∧ E.sg_cmds_open_device v.device_name 0 v.verbose < 0 ∧
        ∃ s, main_body E K v =
          ⟨[Event.sg_cmds_open_device v.device_name 0 v.verbose
              (E.sg_cmds_open_device v.device_name 0 v.verbose), Event.stderr s],
            K.SG_LIB_FILE_ERROR⟩) ∨
      (v.device_name ≠ "" ∧ 0 ≤ E.sg_cmds_open_device v.device_name 0 v.verbose ∧
        ∃ pre rawp ret, main_body E K v =
          (err_out E K (E.sg_cmds_open_device v.device_name 0 v.verbose) rawp ret).after
            (Event.sg_cmds_open_device v.device_name 0 v.verbose
              (E.sg_cmds_open_device v.device_name 0 v.verbose) :: pre) ∧
          (∀ e ∈ pre, e.is_preparation = true) ∧ (∃ e ∈ pre, e.is_prepare_failure = true) ∧
          (ret = 1 ∨ (ret = K.SG_LIB_FILE_ERROR ∧ ∀ e ∈ pre, e.is_input_failure = false))) ∨
      (v.device_name ≠ "" ∧ 0 ≤ E.sg_cmds_open_device v.device_name 0 v.verbose ∧
        (v.wr_uncor ≠ 0 ∨ v.xfer_len < (MAX_XFER_LEN : Int)) ∧
        ∃ pre b, main_body E K v =
          (dispatch E K v (E.sg_cmds_open_device v.device_name 0 v.verbose) b
              (xfer_len_used v)).after
            (Event.sg_cmds_open_device v.device_name 0 v.verbose
              (E.sg_cmds_open_device v.device_name 0 v.verbose) :: pre) ∧
          (∀ e ∈ pre, e.is_preparation = true) ∧ ∀ e ∈ pre, e.is_prepare_failure = false) := by
  unfold main_body
  by_cases hd : v.device_name = ""
  · left
    rw [if_pos hd]
    exact ⟨_, rfl, by simp [usage, Event.is_stderr], Or.inl hd⟩
  · rw [if_neg hd]
    simp only []
    by_cases hx : v.wr_uncor = 0 ∧ (if v.wr_uncor ≠ 0 then 0 else v.xfer_len) ≥ (MAX_XFER_LEN : Int)
    · left
      rw [if_pos hx]
      refine ⟨_, rfl, by simp [usage, Event.is_stderr], Or.inr ⟨hx.1, ?_⟩⟩
      have := hx.2
      simpa [hx.1] using this
    · rw [if_neg hx]
      right
      by_cases ho : E.sg_cmds_open_device v.device_name 0 v.verbose < 0
      · left
        rw [if_pos ho]
        exact ⟨hd, ho, _, rfl⟩
      · right
        rw [if_neg ho]
        have ho2 : 0 ≤ E.sg_cmds_open_device v.device_name 0 v.verbose := by omega
        have hlen : (if v.wr_uncor ≠ 0 then 0 else v.xfer_len) = xfer_len_used v := rfl
        rw [hlen]
        rcases prepare_paths E K v (E.sg_cmds_open_device v.device_name 0 v.verbose)
            (xfer_len_used v) with ⟨pre, rawp, ret, h, hp, hq, hr⟩ | ⟨pre, b, h, hp, hq⟩
        · left
          exact ⟨hd, ho2, pre, rawp, ret, by rw [h, after_after]; rfl, hp, hq, hr⟩
        · right
          refine ⟨hd, ho2, ?_, pre, b, by rw [h, after_after]; rfl, hp, hq⟩
          by_cases hw : v.wr_uncor = 0
          · right
            have : ¬ ((MAX_XFER_LEN : Int) ≤ v.xfer_len) := by
              intro hge; exact hx ⟨hw, by simpa [hw] using hge⟩
            omega
          · exact Or.inl hw

theorem not_write_long_of_preparation (e : Event) (h : e.is_preparation = true) :
    e.is_write_long = false := by
  cases e <;> first | rfl | simp [Event.is_preparation] at h

theorem not_close_device_of_preparation (e : Event) (h : e.is_preparation = true) :
    e.is_close_device = false := by
  cases e <;> first | rfl | simp [Event.is_preparation] at h

theorem not_open_device_ok_of_preparation (e : Event) (h : e.is_preparation = true) :
    e.is_open_device_ok = false := by
  cases e <;> first | rfl | simp [Event.is_preparation] at h

theorem not_stderr_of_write_long (e : Event) (h : e.is_write_long = true) :
    e.is_stderr = false := by
  cases e <;> first | rfl | simp [Event.is_write_long] at h

/-- What the call event says about the call: the arguments and the values
that came back. -/
theorem write_long_call_args (E : Env) (K : SgLib) (v : Vars) (fd : Int) (b : Option (List Nat))
    (n : Int) (a : WriteLongArgs) (r o : Int)
    (h : (write_long_call E K v fd b n).1 = Event.sg_ll_write_long10 a r o ∨
      (write_long_call E K v fd b n).1 = Event.sg_ll_write_long16 a r o) :
    a.xfer_len = n ∧ a.data_out = b ∧ a.sg_fd = fd ∧ r = (write_long_call E K v fd b n).2.1 ∧
      o = (write_long_call E K v fd b n).2.2 := by
  unfold write_long_call at h ⊢
  by_cases hd : v.do_16 ≠ 0
  · simp only [if_pos hd] at h ⊢
    rcases h with h | h
    · simp at h
    · simp only [Event.sg_ll_write_long16.injEq] at h
      obtain ⟨ha, hr, ho⟩ := h
      subst ha
      exact ⟨rfl, rfl, rfl, hr.symm, ho.symm⟩
  · simp only [if_neg hd] at h ⊢
    rcases h with h | h
    · simp only [Event.sg_ll_write_long10.injEq] at h
      obtain ⟨ha, hr, ho⟩ := h
      subst ha
      exact ⟨rfl, rfl, rfl, hr.symm, ho.symm⟩
    · simp at h

/-- The entry point of the call event is the one `do_16` selects. -/
theorem write_long_call_entry (E : Env) (K : SgLib) (v : Vars) (fd : Int) (b : Option (List Nat))
    (n : Int) :
    ∃ a r o, (write_long_call E K v fd b n).1 =
      (if v.do_16 ≠ 0 then Event.sg_ll_write_long16 a r o else Event.sg_ll_write_long10 a r o) ∧
      a.xfer_len = n ∧ a.data_out = b := by
  unfold write_long_call
  by_cases hd : v.do_16 ≠ 0
  · simp only [if_pos hd]
    exact ⟨_, _, _, rfl, rfl, rfl⟩
  · simp only [if_neg hd]
    exact ⟨_, _, _, rfl, rfl, rfl⟩

/-- In a run that dispatches the command, the only WRITE LONG event is the
call of `dispatch`. -/
theorem write_long_mem_after_dispatch (E : Env) (K : SgLib) (v : Vars) (fd : Int)
    (b : Option (List Nat)) (n : Int) (pre : List Event)
    (hpre : ∀ e ∈ pre, e.is_write_long = false) (e : Event)
    (he : e ∈ ((dispatch E K v fd b n).after pre).trace) (hw : e.is_write_long = true) :
    e = (write_long_call E K v fd b n).1 := by
  have h1 : e ∈ write_long_calls ((dispatch E K v fd b n).after pre).trace :=
    (mem_write_long_calls _ _).2 ⟨he, hw⟩
  have h2 : write_long_calls pre = [] := by
    unfold write_long_calls
    rw [List.filter_eq_nil_iff]
    intro x hx
    simp [hpre x hx]
  rw [after_trace, write_long_calls_append, h2, write_long_calls_dispatch] at h1
  simpa using h1

theorem write_long_calls_after_dispatch (E : Env) (K : SgLib) (v : Vars) (fd : Int)
    (b : Option (List Nat)) (n : Int) (pre : List Event)
    (hpre : ∀ e ∈ pre, e.is_write_long = false) :
    write_long_calls ((dispatch E K v fd b n).after pre).trace =
      [(write_long_call E K v fd b n).1] := by
  have h2 : write_long_calls pre = [] := by
    unfold write_long_calls
    rw [List.filter_eq_nil_iff]
    intro x hx
    simp [hpre x hx]
  rw [after_trace, write_long_calls_append, h2, write_long_calls_dispatch]
  rfl

theorem write_long_calls_after_err_out (E : Env) (K : SgLib) (fd : Int) (rawp : Bool) (ret : Int)
    (pre : List Event) (hpre : ∀ e ∈ pre, e.is_write_long = false) :
    write_long_calls ((err_out E K fd rawp ret).after pre).trace = [] := by
  have h2 : write_long_calls pre = [] := by
    unfold write_long_calls
    rw [List.filter_eq_nil_iff]
    intro x hx
    simp [hpre x hx]
  rw [after_trace, write_long_calls_append, h2, write_long_calls_err_out]
  rfl

/-- A WRITE LONG event of a trace is one of its WRITE LONG calls. -/
theorem write_long_mem (t : List Event) (a : WriteLongArgs) (r o : Int)
    (h : Event.sg_ll_write_long10 a r o ∈ t ∨ Event.sg_ll_write_long16 a r o ∈ t) :
    ∃ e ∈ write_long_calls t,
      e = Event.sg_ll_write_long10 a r o ∨ e = Event.sg_ll_write_long16 a r o := by
  rcases h with h | h
  · exact ⟨_, (mem_write_long_calls _ _).2 ⟨h, rfl⟩, Or.inl rfl⟩
  · exact ⟨_, (mem_write_long_calls _ _).2 ⟨h, rfl⟩, Or.inr rfl⟩

/-- A WRITE LONG event in a run of `main_body` means the run went through
`dispatch`, and the event is its call. -/
theorem main_body_dispatched (E : Env) (K : SgLib) (v : Vars) (e : Event)
    (he : e ∈ (main_body E K v).trace) (hw : e.is_write_long = true) :
    v.device_name ≠ "" ∧ 0 ≤ E.sg_cmds_open_device v.device_name 0 v.verbose ∧
      (v.wr_uncor ≠ 0 ∨ v.xfer_len < (MAX_XFER_LEN : Int)) ∧
      ∃ pre b, main_body E K v =
          (dispatch E K v (E.sg_cmds_open_device v.device_name 0 v.verbose) b
              (xfer_len_used v)).after pre ∧
        (∀ x ∈ pre, x.is_write_long = false) ∧ (∀ x ∈ pre, x.is_close_device = false) ∧
        e = (write_long_call E K v (E.sg_cmds_open_device v.device_name 0 v.verbose) b
          (xfer_len_used v)).1 := by
  rcases main_body_paths E K v with ⟨t, h, ht, -⟩ | ⟨-, -, s, h⟩ |
    ⟨-, -, pre, rawp, ret, h, hp, -, -⟩ | ⟨hd, ho, hx, pre, b, h, hp, -⟩
  · rw [h] at he
    have := ht e he
    rw [not_stderr_of_write_long e hw] at this
    cases this
  · rw [h] at he
    simp only [List.mem_cons, List.mem_singleton, List.not_mem_nil, or_false] at he
    rcases he with rfl | rfl <;> cases hw
  · have h1 : e ∈ write_long_calls (main_body E K v).trace :=
      (mem_write_long_calls _ _).2 ⟨he, hw⟩
    rw [h, write_long_calls_after_err_out] at h1
    · cases h1
    · intro x hx
      simp only [List.mem_cons] at hx
      rcases hx with rfl | hx
      · rfl
      · exact not_write_long_of_preparation x (hp x hx)
  · have hpre : ∀ x ∈ Event.sg_cmds_open_device v.device_name 0 v.verbose
        (E.sg_cmds_open_device v.device_name 0 v.verbose) :: pre, x.is_write_long = false := by
      intro x hx
      simp only [List.mem_cons] at hx
      rcases hx with rfl | hx
      · rfl
      · exact not_write_long_of_preparation x (hp x hx)
    have hpre2 : ∀ x ∈ Event.sg_cmds_open_device v.device_name 0 v.verbose
        (E.sg_cmds_open_device v.device_name 0 v.verbose) :: pre, x.is_close_device = false := by
      intro x hx
      simp only [List.mem_cons] at hx
      rcases hx with rfl | hx
      · rfl
      · exact not_close_device_of_preparation x (hp x hx)
    refine ⟨hd, ho, hx, _, b, h, hpre, hpre2, ?_⟩
    rw [h] at he
    exact write_long_mem_after_dispatch E K v _ b _ _ hpre e he hw

/-- The run of `main_body` when `wr_uncor` is set and a device is named. -/
theorem main_body_uncor (E : Env) (K : SgLib) (v : Vars) (hdev : v.device_name ≠ "")
    (hw : v.wr_uncor ≠ 0) :
    main_body E K v =
      if E.sg_cmds_open_device v.device_name 0 v.verbose < 0 then
        ⟨[Event.sg_cmds_open_device v.device_name 0 v.verbose
            (E.sg_cmds_open_device v.device_name 0 v.verbose),
          Event.stderr (ME ++ "open error: " ++ v.device_name ++ ": " ++
            E.safe_strerror (int_neg (E.sg_cmds_open_device v.device_name 0 v.verbose)) ++ "\n")],
          K.SG_LIB_FILE_ERROR⟩
      else
        (dispatch E K v (E.sg_cmds_open_device v.device_name 0 v.verbose) none 0).after
          (Event.sg_cmds_open_device v.device_name 0 v.verbose
              (E.sg_cmds_open_device v.device_name 0 v.verbose) ::
            (if v.file_name ≠ "" then
              [Event.stderr ">>> warning: when '--wr_uncor' given '-in=' is ignored\n"]
            else [])) := by
  simp only [main_body, prepare, if_neg hdev, if_pos hw, hw, false_and, if_false]
  split_ifs <;> rfl

/-- The run of `main_body` when `wr_uncor` is not set, no input file is
named, a device is named and the transfer length is below the maximum. -/
theorem main_body_fill (E : Env) (K : SgLib) (v : Vars) (hdev : v.device_name ≠ "")
    (hw : v.wr_uncor = 0) (hf : v.file_name = "") (hlt : v.xfer_len < (MAX_XFER_LEN : Int)) :
    main_body E K v =
      if E.sg_cmds_open_device v.device_name 0 v.verbose < 0 then
        ⟨[Event.sg_cmds_open_device v.device_name 0 v.verbose
            (E.sg_cmds_open_device v.device_name 0 v.verbose),
          Event.stderr (ME ++ "open error: " ++ v.device_name ++ ": " ++
            E.safe_strerror (int_neg (E.sg_cmds_open_device v.device_name 0 v.verbose)) ++ "\n")],
          K.SG_LIB_FILE_ERROR⟩
      else if E.malloc MAX_XFER_LEN = false then
        (err_out E K (E.sg_cmds_open_device v.device_name 0 v.verbose) false
            K.SG_LIB_FILE_ERROR).after
          [Event.sg_cmds_open_device v.device_name 0 v.verbose
              (E.sg_cmds_open_device v.device_name 0 v.verbose),
            Event.malloc MAX_XFER_LEN false, Event.stderr (ME ++ "out of memory\n")]
      else
        (dispatch E K v (E.sg_cmds_open_device v.device_name 0 v.verbose)
            (some (List.replicate MAX_XFER_LEN 0xff)) v.xfer_len).after
          [Event.sg_cmds_open_device v.device_name 0 v.verbose
              (E.sg_cmds_open_device v.device_name 0 v.verbose),
            Event.malloc MAX_XFER_LEN true, Event.memset 0xff MAX_XFER_LEN] := by
  have hge : ¬ (v.xfer_len ≥ (MAX_XFER_LEN : Int)) := by omega
  simp only [main_body, prepare, if_neg hdev, hw, hf, hge, and_false, if_false, ne_eq,
    not_true_eq_false]
  split_ifs <;> rfl

/-- The kinds of event `err_out` produces. -/
theorem err_out_mem_kinds (E : Env) (K : SgLib) (fd : Int) (rawp : Bool) (ret : Int) (e : Event)
    (he : e ∈ (err_out E K fd rawp ret).trace) :
    e.is_stderr = true ∨ e = Event.free ∨ e.is_close_device = true := by
  rw [err_out_trace] at he
  simp only [List.mem_append, List.mem_singleton] at he
  rcases he with (he | rfl) | he
  · split_ifs at he <;> simp at he
    exact Or.inr (Or.inl he)
  · exact Or.inr (Or.inr rfl)
  · split_ifs at he <;> simp at he
    subst he
    exact Or.inl rfl

/-- The kinds of event `dispatch` produces. -/
theorem dispatch_mem_kinds (E : Env) (K : SgLib) (v : Vars) (fd : Int) (b : Option (List Nat))
    (n : Int) (e : Event) (he : e ∈ (dispatch E K v fd b n).trace) :
    e.is_stderr = true ∨ e.is_write_long = true ∨ e = Event.free ∨ e.is_close_device = true := by
  simp only [dispatch, List.mem_append, List.mem_singleton] at he
  rcases he with ((he | rfl) | he) | he
  · split_ifs at he <;> simp at he
    subst he
    exact Or.inl rfl
  · exact Or.inr (Or.inl (is_write_long_call E K v fd b n))
  · rcases report_cases K (write_long_call E K v fd b n).2.1 (if v.do_16 ≠ 0 then "16" else "10")
        n (write_long_call E K v fd b n).2.2 with h | ⟨s, h⟩
    · rw [h] at he; cases he
    · rw [h] at he
      simp only [List.mem_singleton] at he
      subst he
      exact Or.inl rfl
  · rcases err_out_mem_kinds E K fd _ _ e he with h | h | h
    · exact Or.inl h
    · exact Or.inr (Or.inr (Or.inl h))
    · exact Or.inr (Or.inr (Or.inr h))

theorem dispatch_not_input_file (E : Env) (K : SgLib) (v : Vars) (fd : Int)
    (b : Option (List Nat)) (n : Int) (e : Event) (he : e ∈ (dispatch E K v fd b n).trace) :
    e.is_input_file = false := by
  rcases dispatch_mem_kinds E K v fd b n e he with h | h | h | h <;>
    cases e <;> first | rfl | simp [Event.is_stderr, Event.is_write_long,
      Event.is_close_device] at h

/-- The run of `read_input` when the read delivers the bytes `d`. -/
theorem read_input_some (E : Env) (K : SgLib) (v : Vars) (fd n : Int) (gs : Bool) (infd : Int)
    (buff d : List Nat) (hr : E.read infd n = some d) :
    ∃ pre, read_input E K v fd n gs infd buff =
        (dispatch E K v fd (some (d ++ buff.drop d.length)) n).after pre ∧
      ∀ e ∈ pre, e.is_preparation = true := by
  unfold read_input
  simp only [hr]
  refine ⟨_, rfl, ?_⟩
  cases gs <;> split_ifs <;> simp [Event.is_preparation]

/-- The run of `main_body` when every step up to the dispatch succeeds and
the read of the input file delivers the bytes `d`. -/
theorem main_body_file (E : Env) (K : SgLib) (v : Vars) (d : List Nat)
    (hdev : v.device_name ≠ "") (hw : v.wr_uncor = 0) (hf : v.file_name ≠ "")
    (hlt : v.xfer_len < (MAX_XFER_LEN : Int))
    (hopen : 0 ≤ E.sg_cmds_open_device v.device_name 0 v.verbose)
    (hm : E.malloc MAX_XFER_LEN = true)
    (hfo : v.file_name = "-" ∨ 0 ≤ E.open_file v.file_name)
    (hr : E.read (if v.file_name = "-" then 0 else E.open_file v.file_name) v.xfer_len =
      some d) :
    ∃ pre, main_body E K v =
        (dispatch E K v (E.sg_cmds_open_device v.device_name 0 v.verbose)
          (some (d ++ (List.replicate MAX_XFER_LEN 0xff).drop d.length)) v.xfer_len).after pre ∧
      ∀ e ∈ pre, e.is_write_long = false := by
  have hge : ¬ (v.xfer_len ≥ (MAX_XFER_LEN : Int)) := by omega
  have ho : ¬ (E.sg_cmds_open_device v.device_name 0 v.verbose < 0) := by omega
  simp only [main_body, prepare, if_neg hdev, hw, hf, hge, ho, hm, and_false, if_false, ne_eq,
    not_true_eq_false, not_false_eq_true, if_true, Bool.true_eq_false]
  by_cases hs : v.file_name = "-"
  · rw [if_pos hs] at hr
    rw [if_pos hs]
    obtain ⟨pre, h, hp⟩ := read_input_some E K v _ v.xfer_len true 0
      (List.replicate MAX_XFER_LEN 0xff) d hr
    refine ⟨_, by rw [h, after_after, after_after], ?_⟩
    intro e he
    simp only [List.mem_append, List.mem_cons, List.mem_singleton, List.not_mem_nil,
      or_false] at he
    rcases he with (rfl | rfl | rfl) | he
    · rfl
    · rfl
    · rfl
    · exact not_write_long_of_preparation e (hp e he)
  · rw [if_neg hs] at hr
    have hfo2 : ¬ (E.open_file v.file_name < 0) := by
      rcases hfo with h | h
      · exact absurd h hs
      · omega
    rw [if_neg hs, if_neg hfo2]
    obtain ⟨pre, h, hp⟩ := read_input_some E K v _ v.xfer_len false (E.open_file v.file_name)
      (List.replicate MAX_XFER_LEN 0xff) d hr
    refine ⟨_, by rw [h, after_after, after_after], ?_⟩
    intro e he
    simp only [List.mem_append, List.mem_cons, List.mem_singleton, List.not_mem_nil,
      or_false] at he
    rcases he with (rfl | (rfl | rfl) | rfl) | he
    · rfl
    · rfl
    · rfl
    · rfl
    · exact not_write_long_of_preparation e (hp e he)

/-- The first `n` bytes of a buffer of `N` fill bytes whose start was
overwritten by the first `n` bytes of `file`. -/
theorem take_overwrite_fill (file : List Nat) (x n N : Nat) (hn : n ≤ N) :
    ((file.take n) ++ (List.replicate N x).drop (file.take n).length).take n =
      file.take n ++ List.replicate (n - file.length) x := by
  rw [List.take_append_eq_append_take, List.take_take, Nat.min_self, List.drop_replicate,
    List.take_replicate, List.length_take]
  congr 2
  omega

theorem getElem?_take_append_fill_left (file : List Nat) (x n i : Nat)
    (hi : i < min file.length n) :
    (file.take n ++ List.replicate (n - file.length) x)[i]? = file[i]? := by
  have h1 : i < (file.take n).length := by rw [List.length_take]; omega
  rw [List.getElem?_append_left h1, List.getElem?_take]
  simp only [ite_eq_left_iff, not_lt]
  intro h
  omega

theorem getElem?_take_append_fill_right (file : List Nat) (x n i : Nat)
    (h1 : min file.length n ≤ i) (h2 : i < n) :
    (file.take n ++ List.replicate (n - file.length) x)[i]? = some x := by
  have h3 : (file.take n).length ≤ i := by rw [List.length_take]; omega
  rw [List.getElem?_append_right h3, List.getElem?_replicate, List.length_take]
  have : i - min n file.length < n - file.length := by omega
  simp [this]

theorem outcome_diagnostic_append (pre t : List Event)
    (hpre : ∀ e ∈ pre, e.is_write_long = false) :
    outcome_diagnostic (pre ++ t) = outcome_diagnostic t := by
  induction pre with
  | nil => rfl
  | cons x xs ih =>
    have hx : x.is_write_long = false := hpre x (List.mem_cons_self _ _)
    have hxs : ∀ e ∈ xs, e.is_write_long = false :=
      fun e he => hpre e (List.mem_cons_of_mem _ he)
    simp only [List.cons_append, outcome_diagnostic, hx, Bool.false_eq_true, if_false]
    exact ih hxs

/-- The report in the run of `dispatch` is the line `report` prints. -/
theorem outcome_diagnostic_dispatch (E : Env) (K : SgLib) (v : Vars) (fd : Int)
    (b : Option (List Nat)) (n : Int) (s : String)
    (h : report K (write_long_call E K v fd b n).2.1 (if v.do_16 ≠ 0 then "16" else "10") n
      (write_long_call E K v fd b n).2.2 = [Event.stderr s]) :
    outcome_diagnostic (dispatch E K v fd b n).trace = some s := by
  have hc := is_write_long_call E K v fd b n
  simp only [dispatch, h]
  rw [List.append_assoc, List.append_assoc, outcome_diagnostic_append]
  · simp [outcome_diagnostic, hc]
  · intro e he
    split_ifs at he <;> simp at he
    subst he; rfl

/-- The needle occurs in any text built around it. -/
theorem text_contains_mid (p needle q : String) : text_contains (p ++ needle ++ q) needle := by
  unfold text_contains
  exact ⟨p.data, q.data, by simp [String.data_append]⟩

/-- Every report of a failure other than "illegal request with info" names
the width `ten_or`. -/
theorem report_names_width (K : SgLib) (res : Int) (ten_or : String) (n off : Int)
    (h0 : res ≠ 0) (h1 : res ≠ K.SG_LIB_CAT_ILLEGAL_REQ_WITH_INFO) :
    ∃ s, report K res ten_or n off = [Event.stderr s] ∧ text_contains s ten_or := by
  unfold report
  rw [if_neg h0]
  split_ifs
  all_goals exact ⟨_, rfl, text_contains_mid _ _ _⟩

/-- The report of "illegal request with info". -/
theorem report_with_info (K : SgLib) (hK : K.labels_distinct) (ten_or : String) (n off : Int) :
    report K K.SG_LIB_CAT_ILLEGAL_REQ_WITH_INFO ten_or n off =
      [Event.stderr ("<<< device indicates 'xfer_len' should be " ++ fmt_d (int_sub n off) ++
        " >>>\n")] := by
  simp only [SgLib.labels_distinct, List.nodup_cons, List.mem_cons, List.mem_singleton,
    not_or, List.not_mem_nil, not_false_eq_true, List.nodup_nil, and_true] at hK
  obtain ⟨⟨-, -, -, -, -, h0⟩, ⟨-, -, -, -, h1⟩, ⟨-, -, -, h2⟩, ⟨-, -, h3⟩, ⟨-, h4⟩, h5⟩ := hK
  unfold report
  rw [if_neg (Ne.symm h0), if_neg (Ne.symm h1), if_neg (Ne.symm h2), if_neg (Ne.symm h3),
    if_neg (Ne.symm h4), if_neg (Ne.symm h5), if_pos rfl]

/-- The entry point of the call event tells `do_16`. -/
theorem write_long_call_do_16 (E : Env) (K : SgLib) (v : Vars) (fd : Int) (b : Option (List Nat))
    (n : Int) (a : WriteLongArgs) (r o : Int) :
    ((write_long_call E K v fd b n).1 = Event.sg_ll_write_long16 a r o → v.do_16 ≠ 0) ∧
      ((write_long_call E K v fd b n).1 = Event.sg_ll_write_long10 a r o → ¬ v.do_16 ≠ 0) := by
  unfold write_long_call
  by_cases hd : v.do_16 ≠ 0
  · simp only [if_pos hd]
    exact ⟨fun _ => hd, fun h => by simp at h⟩
  · simp only [if_neg hd]
    exact ⟨fun h => by simp at h, fun _ => hd⟩

/-- Subtraction on `int` is exact when the difference is representable. -/
theorem int_sub_exact (a b : Int) (h : in_int_range (a - b)) : int_sub a b = a - b := by
  unfold in_int_range at h
  unfold int_sub wrap_int
  omega

/-- The only close of the device in the run of `dispatch` is the one of
`err_out`. -/
theorem close_device_mem_dispatch (E : Env) (K : SgLib) (v : Vars) (fd : Int)
    (b : Option (List Nat)) (n : Int) (fd1 c : Int)
    (h : Event.sg_cmds_close_device fd1 c ∈ (dispatch E K v fd b n).trace) :
    fd1 = fd ∧ c = E.sg_cmds_close_device fd := by
  have h1 : Event.sg_cmds_close_device fd1 c ∈
      (dispatch E K v fd b n).trace.filter Event.is_close_device :=
    List.mem_filter.2 ⟨h, rfl⟩
  rw [filter_dispatch _ (fun _ => rfl) rfl] at h1
  have hc : (write_long_call E K v fd b n).1.is_close_device = false := by
    unfold write_long_call
    split_ifs <;> rfl
  have h2 : [(write_long_call E K v fd b n).1].filter Event.is_close_device = [] := by
    simp only [List.filter_cons, hc, List.filter_nil, Bool.false_eq_true, if_false]
  have h3 : [Event.sg_cmds_close_device fd (E.sg_cmds_close_device fd)].filter
      Event.is_close_device = [Event.sg_cmds_close_device fd (E.sg_cmds_close_device fd)] := rfl
  rw [h2, h3, List.nil_append, List.mem_singleton] at h1
  simpa using h1

theorem close_device_count_append (s t : List Event) :
    close_device_count (s ++ t) = close_device_count s + close_device_count t := by
  simp [close_device_count]

theorem close_device_count_eq_zero (t : List Event)
    (h : ∀ e ∈ t, e.is_close_device = false) : close_device_count t = 0 := by
  unfold close_device_count
  rw [List.countP_eq_zero]
  intro e he
  simp [h e he]

theorem close_device_count_err_out (E : Env) (K : SgLib) (fd : Int) (rawp : Bool) (ret : Int) :
    close_device_count (err_out E K fd rawp ret).trace = 1 := by
  unfold close_device_count
  rw [List.countP_eq_length_filter, filter_err_out _ (fun _ => rfl) rfl]
  rfl

theorem close_device_count_dispatch (E : Env) (K : SgLib) (v : Vars) (fd : Int)
    (b : Option (List Nat)) (n : Int) :
    close_device_count (dispatch E K v fd b n).trace = 1 := by
  have hc : (write_long_call E K v fd b n).1.is_close_device = false := by
    unfold write_long_call
    split_ifs <;> rfl
  have h2 : [(write_long_call E K v fd b n).1].filter Event.is_close_device = [] := by
    simp only [List.filter_cons, hc, List.filter_nil, Bool.false_eq_true, if_false]
  unfold close_device_count
  rw [List.countP_eq_length_filter, filter_dispatch _ (fun _ => rfl) rfl, h2]
  rfl

theorem not_close_device_of_stderr (e : Event) (h : e.is_stderr = true) :
    e.is_close_device = false := by
  cases e <;> first | rfl | simp [Event.is_stderr] at h

theorem not_open_device_ok_of_stderr (e : Event) (h : e.is_stderr = true) :
    e.is_open_device_ok = false := by
  cases e <;> first | rfl | simp [Event.is_stderr] at h

/-- In a run that is messages only the device is neither opened nor
closed. -/
theorem closes_of_messages (t : List Event) (h : ∀ e ∈ t, e.is_stderr = true) :
    ¬ device_opened t ∧ close_device_count t = 0 := by
  refine ⟨?_, close_device_count_eq_zero t fun e he => not_close_device_of_stderr e (h e he)⟩
  rintro ⟨e, he, ho⟩
  rw [not_open_device_ok_of_stderr e (h e he)] at ho
  cases ho

/-- The close of the device in a run of `main_body`: once when the device
was opened, never otherwise. -/
theorem main_body_closes (E : Env) (K : SgLib) (v : Vars) :
    (device_opened (main_body E K v).trace ∧ close_device_count (main_body E K v).trace = 1) ∨
      (¬ device_opened (main_body E K v).trace ∧
        close_device_count (main_body E K v).trace = 0) := by
  rcases main_body_paths E K v with ⟨t, h, ht, -⟩ | ⟨-, ho, s, h⟩ |
    ⟨-, ho, pre, rawp, ret, h, hp, -, -⟩ | ⟨-, ho, -, pre, b, h, hp, -⟩
  · right
    rw [h]
    exact closes_of_messages t ht
  · right
    rw [h]
    refine ⟨?_, rfl⟩
    rintro ⟨e, he, hok⟩
    simp only [List.mem_cons, List.mem_singleton, List.not_mem_nil, or_false] at he
    rcases he with rfl | rfl
    · simp only [Event.is_open_device_ok, decide_eq_true_eq] at hok
      omega
    · cases hok
  · left
    rw [h, after_trace]
    refine ⟨⟨_, List.mem_append_left _ (List.mem_cons_self _ _), by
      simp only [Event.is_open_device_ok, decide_eq_true_eq]; exact ho⟩, ?_⟩
    rw [close_device_count_append, close_device_count_err_out, close_device_count_eq_zero]
    intro e he
    simp only [List.mem_cons] at he
    rcases he with rfl | he
    · rfl
    · exact not_close_device_of_preparation e (hp e he)
  · left
    rw [h, after_trace]
    refine ⟨⟨_, List.mem_append_left _ (List.mem_cons_self _ _), by
      simp only [Event.is_open_device_ok, decide_eq_true_eq]; exact ho⟩, ?_⟩
    rw [close_device_count_append, close_device_count_dispatch, close_device_count_eq_zero]
    intro e he
    simp only [List.mem_cons] at he
    rcases he with rfl | he
    · rfl
    · exact not_close_device_of_preparation e (hp e he)

/-- A return of `main` from the option loop leaves messages only. -/
theorem main_options_error (E : Env) (K : SgLib) (opts : List (Char × String)) :
    ∀ (v : Vars) (r : Result), main_options E K opts v = .error r →
      ∀ e ∈ r.trace, e.is_stderr = true := by
  induction opts with
  | nil => intro v r h; cases h
  | cons o rest ih =>
    obtain ⟨c, optarg⟩ := o
    intro v r h
    have hmsg : ∀ (t : List Event) (st : Int), (∀ e ∈ t, e.is_stderr = true) →
        (Except.error ⟨t, st⟩ : Except Result Vars) = .error r →
        ∀ e ∈ r.trace, e.is_stderr = true := by
      intro t st ht heq
      injection heq with heq
      subst heq
      exact ht
    unfold main_options at h
    by_cases h1 : c = 'c'
    · rw [if_pos h1] at h; exact ih _ r h
    rw [if_neg h1] at h
    by_cases h2 : c = 'h' ∨ c = '?'
    · rw [if_pos h2] at h
      exact hmsg _ _ (by simp [usage, Event.is_stderr]) h
    rw [if_neg h2] at h
    by_cases h3 : c = 'i'
    · rw [if_pos h3] at h; exact ih _ r h
    rw [if_neg h3] at h
    by_cases h4 : c = 'l'
    · rw [if_pos h4] at h
      simp only [] at h
      by_cases h5 : -1 = E.sg_get_llnum optarg
      · rw [if_pos h5] at h
        exact hmsg _ _ (by simp [Event.is_stderr]) h
      · rw [if_neg h5] at h; exact ih _ r h
    rw [if_neg h4] at h
    by_cases h6 : c = 'p'
    · rw [if_pos h6] at h; exact ih _ r h
    rw [if_neg h6] at h
    by_cases h7 : c = 'S'
    · rw [if_pos h7] at h; exact ih _ r h
    rw [if_neg h7] at h
    by_cases h8 : c = 'v'
    · rw [if_pos h8] at h; exact ih _ r h
    rw [if_neg h8] at h
    by_cases h9 : c = 'V'
    · rw [if_pos h9] at h
      exact hmsg _ _ (by simp [Event.is_stderr]) h
    rw [if_neg h9] at h
    by_cases h10 : c = 'w'
    · rw [if_pos h10] at h; exact ih _ r h
    rw [if_neg h10] at h
    by_cases h11 : c = 'x'
    · rw [if_pos h11] at h
      simp only [] at h
      by_cases h12 : -1 = E.sg_get_num optarg
      · rw [if_pos h12] at h
        exact hmsg _ _ (by simp [Event.is_stderr]) h
      · rw [if_neg h12] at h; exact ih _ r h
    rw [if_neg h11] at h
    exact hmsg _ _ (by simp [usage, Event.is_stderr]) h

/-- A return of `main` at the leftover arguments leaves messages only. -/
theorem main_args_error (K : SgLib) (v : Vars) (args : List String) (r : Result)
    (h : main_args K v args = .error r) : ∀ e ∈ r.trace, e.is_stderr = true := by
  cases args with
  | nil => cases h
  | cons a rest =>
    unfold main_args at h
    simp only [] at h
    split_ifs at h
    all_goals
      injection h with h
      subst h
      intro e he
      simp only [usage, List.mem_append, List.mem_map, List.mem_singleton] at he
      rcases he with ⟨s, -, rfl⟩ | rfl <;> rfl

/-- Every run of `main` is messages only, or a run of `main_body`. -/
theorem main_paths (E : Env) (K : SgLib) (opts : List (Char × String)) (args : List String) :
    (∀ e ∈ (main E K opts args).trace, e.is_stderr = true) ∨
      ∃ v, main E K opts args = main_body E K v := by
  unfold main
  cases h1 : main_options E K opts {} with
  | error r => exact Or.inl (main_options_error E K opts _ r h1)
  | ok v =>
    cases h2 : main_args K v args with
    | error r =>
      left
      simp only [h2]
      exact main_args_error K v args r h2
    | ok v1 =>
      right
      simp only [h2]
      exact ⟨v1, rfl⟩

theorem dispatch_not_prepare_failure (E : Env) (K : SgLib) (v : Vars) (fd : Int)
    (b : Option (List Nat)) (n : Int) (e : Event) (he : e ∈ (dispatch E K v fd b n).trace) :
    e.is_prepare_failure = false := by
  rcases dispatch_mem_kinds E K v fd b n e he with h | h | h | h <;>
    cases e <;> first | rfl | simp [Event.is_stderr, Event.is_write_long,
      Event.is_close_device] at h

theorem err_out_not_prepare_failure (E : Env) (K : SgLib) (fd : Int) (rawp : Bool) (ret : Int)
    (e : Event) (he : e ∈ (err_out E K fd rawp ret).trace) : e.is_prepare_failure = false := by
  rcases err_out_mem_kinds E K fd rawp ret e he with h | h | h <;>
    cases e <;> first | rfl | simp [Event.is_stderr, Event.is_close_device] at h

/-- A run of `main_body` in which the device was opened goes to `err_out`
after a failed step of the preparation, or dispatches the command after a
preparation without a failed step. -/
theorem main_body_opened (E : Env) (K : SgLib) (v : Vars)
    (hopen : device_opened (main_body E K v).trace) :
    (∃ pre rawp ret, main_body E K v =
          (err_out E K (E.sg_cmds_open_device v.device_name 0 v.verbose) rawp ret).after pre ∧
        (∀ e ∈ pre, e.is_write_long = false) ∧ (∃ e ∈ pre, e.is_prepare_failure = true) ∧
        (ret = 1 ∨ (ret = K.SG_LIB_FILE_ERROR ∧
          ∀ e ∈ (main_body E K v).trace, e.is_input_failure = false))) ∨
      (∃ pre b, main_body E K v =
          (dispatch E K v (E.sg_cmds_open_device v.device_name 0 v.verbose) b
            (xfer_len_used v)).after pre ∧
        (∀ e ∈ pre, e.is_write_long = false) ∧
        ∀ e ∈ (main_body E K v).trace, e.is_prepare_failure = false) := by
  rcases main_body_paths E K v with ⟨t, h, ht, -⟩ | ⟨-, ho, s, h⟩ |
    ⟨-, ho, pre, rawp, ret, h, hp, hq, hr⟩ | ⟨-, ho, -, pre, b, h, hp, hq⟩
  · rw [h] at hopen
    exact absurd hopen (closes_of_messages t ht).1
  · exfalso
    rw [h] at hopen
    obtain ⟨e, he, hok⟩ := hopen
    simp only [List.mem_cons, List.mem_singleton, List.not_mem_nil, or_false] at he
    rcases he with rfl | rfl
    · simp only [Event.is_open_device_ok, decide_eq_true_eq] at hok
      omega
    · cases hok
  · left
    refine ⟨_, rawp, ret, h, ?_, ?_, ?_⟩
    · intro e he
      simp only [List.mem_cons] at he
      rcases he with rfl | he
      · rfl
      · exact not_write_long_of_preparation e (hp e he)
    · obtain ⟨e, he, hf⟩ := hq
      exact ⟨e, List.mem_cons_of_mem _ he, hf⟩
    · rcases hr with hr | ⟨hr, hin⟩
      · exact Or.inl hr
      · refine Or.inr ⟨hr, ?_⟩
        intro e he
        rw [h, after_trace, List.mem_append, List.mem_cons] at he
        rcases he with (rfl | he) | he
        · rfl
        · exact hin e he
        · have := err_out_not_prepare_failure E K _ _ _ e he
          cases e <;> first | rfl | exact this
  · right
    refine ⟨_, b, h, ?_, ?_⟩
    · intro e he
      simp only [List.mem_cons] at he
      rcases he with rfl | he
      · rfl
      · exact not_write_long_of_preparation e (hp e he)
    · intro e he
      rw [h, after_trace, List.mem_append, List.mem_cons] at he
      rcases he with (rfl | he) | he
      · rfl
      · exact hq e he
      · exact dispatch_not_prepare_failure E K v _ _ _ e he

set_option maxRecDepth 100000 in
/-- The file name `data.bin` fits the 256 bytes of `file_name`. -/
theorem take_data_bin : "data.bin".take 256 = "data.bin" := by decide

set_option maxRecDepth 100000 in
/-- The device name `/dev/sg1` fits the 255 bytes copied to `device_name`. -/
theorem take_dev_sg1 : "/dev/sg1".take 255 = "/dev/sg1" := by decide

/-! ## The claims -/

/-- C1: with `wr_uncor` not set, no input file and a transfer length `n` with
`0 <= n < 10000`, the run passes validation (its first action is the opening
of the device); every WRITE LONG call of the run is handed the transfer
length `n` and a payload of `n` bytes, each `0xFF`; and when the device
opens and the buffer is allocated there is exactly one such call. -/
theorem fill_payload (E : Env) (K : SgLib) (v : Vars) (hdev : v.device_name ≠ "")
    (hw : v.wr_uncor = 0) (hf : v.file_name = "") (h0 : 0 ≤ v.xfer_len)
    (h1 : v.xfer_len < 10000) :
    (main_body E K v).trace.head? =
        some (Event.sg_cmds_open_device v.device_name 0 v.verbose
          (E.sg_cmds_open_device v.device_name 0 v.verbose)) ∧
      (∀ a ret off, (Event.sg_ll_write_long10 a ret off ∈ (main_body E K v).trace ∨
            Event.sg_ll_write_long16 a ret off ∈ (main_body E K v).trace) →
          a.xfer_len = v.xfer_len ∧ a.payload.length = v.xfer_len.toNat ∧
            ∀ b ∈ a.payload, b = 0xff) ∧
      (0 ≤ E.sg_cmds_open_device v.device_name 0 v.verbose → E.malloc MAX_XFER_LEN = true →
        (write_long_calls (main_body E K v).trace).length = 1) := by
  have hlt : v.xfer_len < (MAX_XFER_LEN : Int) := by simp only [MAX_XFER_LEN]; omega
  have hn : v.xfer_len.toNat ≤ MAX_XFER_LEN := by simp only [MAX_XFER_LEN]; omega
  rw [main_body_fill E K v hdev hw hf hlt]
  by_cases ho : E.sg_cmds_open_device v.device_name 0 v.verbose < 0
  · rw [if_pos ho]
    refine ⟨rfl, ?_, fun h => absurd ho (by omega)⟩
    intro a ret off h
    simp at h
  · rw [if_neg ho]
    by_cases hm : E.malloc MAX_XFER_LEN = false
    · rw [if_pos hm]
      refine ⟨rfl, ?_, fun _ h => by simp [hm] at h⟩
      intro a ret off h
      obtain ⟨e, he, h⟩ := write_long_mem _ a ret off h
      rw [write_long_calls_after_err_out] at he
      · cases he
      · simp [Event.is_write_long]
    · rw [if_neg hm]
      have hpre : ∀ e ∈ [Event.sg_cmds_open_device v.device_name 0 v.verbose
          (E.sg_cmds_open_device v.device_name 0 v.verbose),
          Event.malloc MAX_XFER_LEN true, Event.memset 0xff MAX_XFER_LEN],
          e.is_write_long = false := by
        simp [Event.is_write_long]
      refine ⟨rfl, ?_, fun _ _ => by rw [write_long_calls_after_dispatch _ _ _ _ _ _ _ hpre]; rfl⟩
      intro a ret off h
      obtain ⟨e, he, h⟩ := write_long_mem _ a ret off h
      rw [write_long_calls_after_dispatch _ _ _ _ _ _ _ hpre, List.mem_singleton] at he
      subst he
      obtain ⟨hx, hd, -⟩ := write_long_call_args E K v _ _ _ a ret off h
      refine ⟨hx, ?_, ?_⟩
      · simp [WriteLongArgs.payload, hx, hd, hn]
      · intro b hb
        simp only [WriteLongArgs.payload, hx, hd, Option.getD_some] at hb
        exact List.eq_of_mem_replicate (List.mem_of_mem_take hb)

/-- C1 at a concrete run: 520 bytes (the default) to `/dev/sg1` in the world
`E0`. -/
theorem fill_payload_witness :
    (main_body (E0 0 [] 0 0 0) K0 { device_name := "/dev/sg1" }).trace.head? =
        some (Event.sg_cmds_open_device "/dev/sg1" 0 0 3) ∧
      (∀ a ret off,
          (Event.sg_ll_write_long10 a ret off ∈
              (main_body (E0 0 [] 0 0 0) K0 { device_name := "/dev/sg1" }).trace ∨
            Event.sg_ll_write_long16 a ret off ∈
              (main_body (E0 0 [] 0 0 0) K0 { device_name := "/dev/sg1" }).trace) →
          a.xfer_len = 520 ∧ a.payload.length = 520 ∧ ∀ b ∈ a.payload, b = 0xff) ∧
      ((0 : Int) ≤ 3 → true = true →
        (write_long_calls
          (main_body (E0 0 [] 0 0 0) K0 { device_name := "/dev/sg1" }).trace).length = 1) :=
  fill_payload (E0 0 [] 0 0 0) K0 { device_name := "/dev/sg1" } (by decide) rfl rfl
    (by decide) (by decide)

/-- C2: with `wr_uncor` not set, a device named and a transfer length of
10000 or more, `main` returns `SG_LIB_SYNTAX_ERROR` and the run consists of
messages on stderr only: the device is not opened, no buffer is allocated and
neither WRITE LONG entry point is called. -/
theorem xfer_len_rejected (E : Env) (K : SgLib) (v : Vars) (hdev : v.device_name ≠ "")
    (hw : v.wr_uncor = 0) (hn : 10000 ≤ v.xfer_len) :
    (main_body E K v).status = K.SG_LIB_SYNTAX_ERROR ∧
      ∀ e ∈ (main_body E K v).trace,
        e.is_stderr = true ∧ e.is_open_device = false ∧ e.is_malloc = false ∧
          e.is_write_long = false := by
  have hge : v.xfer_len ≥ (MAX_XFER_LEN : Int) := by simp only [MAX_XFER_LEN]; omega
  have h : main_body E K v =
      ⟨[Event.stderr ("xfer_len (" ++ fmt_d v.xfer_len ++ ") is out of range ( < " ++
          fmt_d MAX_XFER_LEN ++ ")\n")] ++ usage, K.SG_LIB_SYNTAX_ERROR⟩ := by
    simp only [main_body, if_neg hdev, hw, hge, and_self, if_true, ne_eq, not_true_eq_false,
      if_false]
  rw [h]
  refine ⟨rfl, ?_⟩
  intro e he
  simp only [usage, List.singleton_append, List.mem_cons, List.mem_singleton,
    List.not_mem_nil, or_false] at he
  rcases he with rfl | rfl <;> exact ⟨rfl, rfl, rfl, rfl⟩

/-- C2 at a concrete run: a transfer length of 10000 to `/dev/sg1`. -/
theorem xfer_len_rejected_witness :
    (main_body (E0 0 [] 0 0 0) K0 { device_name := "/dev/sg1", xfer_len := 10000 }).status =
        K0.SG_LIB_SYNTAX_ERROR ∧
      ∀ e ∈ (main_body (E0 0 [] 0 0 0) K0 { device_name := "/dev/sg1", xfer_len := 10000 }).trace,
        e.is_stderr = true ∧ e.is_open_device = false ∧ e.is_malloc = false ∧
          e.is_write_long = false :=
  xfer_len_rejected (E0 0 [] 0 0 0) K0 { device_name := "/dev/sg1", xfer_len := 10000 }
    (by decide) rfl (by decide)

/-- C3: with `wr_uncor` set, whatever `xfer_len` and `file_name` hold, every
WRITE LONG call of the run is handed the NULL buffer and the transfer length
0 (so an empty payload), no event of the run opens or reads the input file,
and when a device is named and opens there is exactly one such call. -/
theorem uncorrectable_no_payload (E : Env) (K : SgLib) (v : Vars) (hw : v.wr_uncor ≠ 0) :
    (∀ a ret off, (Event.sg_ll_write_long10 a ret off ∈ (main_body E K v).trace ∨
          Event.sg_ll_write_long16 a ret off ∈ (main_body E K v).trace) →
        a.data_out = none ∧ a.xfer_len = 0 ∧ a.payload = []) ∧
      (∀ e ∈ (main_body E K v).trace, e.is_input_file = false) ∧
      (v.device_name ≠ "" → 0 ≤ E.sg_cmds_open_device v.device_name 0 v.verbose →
        (write_long_calls (main_body E K v).trace).length = 1) := by
  by_cases hdev : v.device_name = ""
  · have h : main_body E K v =
        ⟨[Event.stderr "missing device name!\n"] ++ usage, K.SG_LIB_SYNTAX_ERROR⟩ := by
      simp only [main_body, if_pos hdev]
    rw [h]
    refine ⟨?_, ?_, fun h => absurd hdev h⟩
    · intro a ret off h
      simp [usage] at h
    · intro e he
      simp only [usage, List.singleton_append, List.mem_cons, List.mem_singleton,
        List.not_mem_nil, or_false] at he
      rcases he with rfl | rfl <;> rfl
  · rw [main_body_uncor E K v hdev hw]
    by_cases ho : E.sg_cmds_open_device v.device_name 0 v.verbose < 0
    · rw [if_pos ho]
      refine ⟨?_, ?_, fun _ h => absurd ho (by omega)⟩
      · intro a ret off h
        simp at h
      · intro e he
        simp only [List.mem_cons, List.mem_singleton, List.not_mem_nil, or_false] at he
        rcases he with rfl | rfl <;> rfl
    · rw [if_neg ho]
      have hpre : ∀ e ∈ Event.sg_cmds_open_device v.device_name 0 v.verbose
          (E.sg_cmds_open_device v.device_name 0 v.verbose) ::
            (if v.file_name ≠ "" then
              [Event.stderr ">>> warning: when '--wr_uncor' given '-in=' is ignored\n"]
            else []),
          e.is_write_long = false ∧ e.is_input_file = false := by
        intro e he
        split_ifs at he <;> simp at he
        · rcases he with rfl | rfl <;> exact ⟨rfl, rfl⟩
        · subst he; exact ⟨rfl, rfl⟩
      refine ⟨?_, ?_, fun _ _ => by
        rw [write_long_calls_after_dispatch _ _ _ _ _ _ _ (fun e he => (hpre e he).1)]; rfl⟩
      · intro a ret off h
        obtain ⟨e, he, h⟩ := write_long_mem _ a ret off h
        rw [write_long_calls_after_dispatch _ _ _ _ _ _ _ (fun e he => (hpre e he).1),
          List.mem_singleton] at he
        subst he
        obtain ⟨hx, hd, -⟩ := write_long_call_args E K v _ _ _ a ret off h
        exact ⟨hd, hx, by simp [WriteLongArgs.payload, hx]⟩
      · intro e he
        rw [after_trace, List.mem_append] at he
        rcases he with he | he
        · exact (hpre e he).2
        · exact dispatch_not_input_file E K v _ _ _ e he

/-- C3 at a concrete run: `--wr_uncor --xfer_len=20000 --in=data.bin` on
`/dev/sg1`. -/
theorem uncorrectable_no_payload_witness :
    (∀ a ret off,
        (Event.sg_ll_write_long10 a ret off ∈ (main_body (E0 0 [1, 2] 0 0 0) K0
            { device_name := "/dev/sg1", wr_uncor := 1, xfer_len := 20000,
              file_name := "data.bin" }).trace ∨
          Event.sg_ll_write_long16 a ret off ∈ (main_body (E0 0 [1, 2] 0 0 0) K0
            { device_name := "/dev/sg1", wr_uncor := 1, xfer_len := 20000,
              file_name := "data.bin" }).trace) →
        a.data_out = none ∧ a.xfer_len = 0 ∧ a.payload = []) ∧
      (∀ e ∈ (main_body (E0 0 [1, 2] 0 0 0) K0
          { device_name := "/dev/sg1", wr_uncor := 1, xfer_len := 20000,
            file_name := "data.bin" }).trace, e.is_input_file = false) ∧
      ("/dev/sg1" ≠ "" → (0 : Int) ≤ 3 →
        (write_long_calls (main_body (E0 0 [1, 2] 0 0 0) K0
          { device_name := "/dev/sg1", wr_uncor := 1, xfer_len := 20000,
            file_name := "data.bin" }).trace).length = 1) :=
  uncorrectable_no_payload (E0 0 [1, 2] 0 0 0) K0
    { device_name := "/dev/sg1", wr_uncor := 1, xfer_len := 20000, file_name := "data.bin" }
    (by decide)

/-- C4: with `wr_uncor` not set, a transfer length `n` with `0 <= n < 10000`
and an input file (or stdin) whose read delivers the first `min (length, n)`
bytes of the content `file`, a run in which the device opens, the buffer is
allocated and the file opens makes exactly one WRITE LONG call, through the
entry point `do_16` selects, with transfer length `n` and the payload
`file[0..r)` followed by `n - r` bytes `0xFF`: byte `i` is the file's byte
for `i < r` and `0xFF` for `r <= i < n`.  A short read does not stop the
command. -/
theorem file_payload (E : Env) (K : SgLib) (v : Vars) (file : List Nat)
    (hdev : v.device_name ≠ "") (hw : v.wr_uncor = 0) (hf : v.file_name ≠ "")
    (h0 : 0 ≤ v.xfer_len) (h1 : v.xfer_len < 10000)
    (hopen : 0 ≤ E.sg_cmds_open_device v.device_name 0 v.verbose)
    (hm : E.malloc MAX_XFER_LEN = true)
    (hfo : v.file_name = "-" ∨ 0 ≤ E.open_file v.file_name)
    (hr : E.read (if v.file_name = "-" then 0 else E.open_file v.file_name) v.xfer_len =
      some (file.take v.xfer_len.toNat)) :
    ∃ a ret off,
      write_long_calls (main_body E K v).trace =
          [if v.do_16 ≠ 0 then Event.sg_ll_write_long16 a ret off
            else Event.sg_ll_write_long10 a ret off] ∧
        a.xfer_len = v.xfer_len ∧
        a.payload =
          file.take v.xfer_len.toNat ++ List.replicate (v.xfer_len.toNat - file.length) 0xff ∧
        a.payload.length = v.xfer_len.toNat ∧
        (∀ i, i < min file.length v.xfer_len.toNat → a.payload[i]? = file[i]?) ∧
        (∀ i, min file.length v.xfer_len.toNat ≤ i → i < v.xfer_len.toNat →
          a.payload[i]? = some 0xff) := by
  have hlt : v.xfer_len < (MAX_XFER_LEN : Int) := by simp only [MAX_XFER_LEN]; omega
  have hn : v.xfer_len.toNat ≤ MAX_XFER_LEN := by simp only [MAX_XFER_LEN]; omega
  obtain ⟨pre, h, hpre⟩ := main_body_file E K v _ hdev hw hf hlt hopen hm hfo hr
  obtain ⟨a, ret, off, hcall, hx, hd⟩ := write_long_call_entry E K v
    (E.sg_cmds_open_device v.device_name 0 v.verbose)
    (some (file.take v.xfer_len.toNat ++
      (List.replicate MAX_XFER_LEN 0xff).drop (file.take v.xfer_len.toNat).length)) v.xfer_len
  have hp : a.payload =
      file.take v.xfer_len.toNat ++ List.replicate (v.xfer_len.toNat - file.length) 0xff := by
    simp only [WriteLongArgs.payload, hx, hd, Option.getD_some]
    exact take_overwrite_fill file 0xff v.xfer_len.toNat MAX_XFER_LEN hn
  refine ⟨a, ret, off, ?_, hx, hp, ?_, ?_, ?_⟩
  · rw [h, write_long_calls_after_dispatch _ _ _ _ _ _ _ hpre, hcall]
  · rw [hp, List.length_append, List.length_take, List.length_replicate]
    omega
  · intro i hi
    rw [hp]
    exact getElem?_take_append_fill_left file 0xff _ i hi
  · intro i hi1 hi2
    rw [hp]
    exact getElem?_take_append_fill_right file 0xff _ i hi1 hi2

/-- C4 at a concrete run: a file of 3 bytes and a transfer length of 5. -/
theorem file_payload_witness :
    ∃ a ret off,
      write_long_calls (main_body (E0 0 [1, 2, 3] 0 0 0) K0
          { device_name := "/dev/sg1", xfer_len := 5, file_name := "data.bin" }).trace =
          [Event.sg_ll_write_long10 a ret off] ∧
        a.xfer_len = 5 ∧ a.payload = [1, 2, 3, 0xff, 0xff] :=
  match file_payload (E0 0 [1, 2, 3] 0 0 0) K0
      { device_name := "/dev/sg1", xfer_len := 5, file_name := "data.bin" } [1, 2, 3]
      (by decide) rfl (by decide) (by decide) (by decide) (by decide) rfl
      (Or.inr (by decide)) rfl with
  | ⟨a, ret, off, h1, h2, h3, _⟩ => ⟨a, ret, off, h1, h2, h3⟩

/-- C5: when the WRITE LONG call of a run returns
`SG_LIB_CAT_ILLEGAL_REQ_WITH_INFO` with the value `off` in `offset`, the
report of the outcome is the line "device indicates 'xfer_len' should be"
with the value `xfer_len - offset` computed on `int`, printed with `%d`:
there is no clamping, the value is the exact difference whenever that is
representable as an `int` (a negative one included), and 500 with offset 50
gives 450. -/
theorem corrected_length (E : Env) (K : SgLib) (v : Vars) (hK : K.labels_distinct)
    (a : WriteLongArgs) (off : Int)
    (h : Event.sg_ll_write_long10 a K.SG_LIB_CAT_ILLEGAL_REQ_WITH_INFO off ∈
          (main_body E K v).trace ∨
        Event.sg_ll_write_long16 a K.SG_LIB_CAT_ILLEGAL_REQ_WITH_INFO off ∈
          (main_body E K v).trace) :
    outcome_diagnostic (main_body E K v).trace =
        some ("<<< device indicates 'xfer_len' should be " ++ fmt_d (int_sub a.xfer_len off) ++
          " >>>\n") ∧
      (in_int_range (a.xfer_len - off) → int_sub a.xfer_len off = a.xfer_len - off) ∧
      (a.xfer_len = 500 → off = 50 →
        outcome_diagnostic (main_body E K v).trace =
          some "<<< device indicates 'xfer_len' should be 450 >>>\n") := by
  have key : outcome_diagnostic (main_body E K v).trace =
      some ("<<< device indicates 'xfer_len' should be " ++ fmt_d (int_sub a.xfer_len off) ++
        " >>>\n") := by
    obtain ⟨e, he, hor⟩ := write_long_mem _ a _ off h
    obtain ⟨he1, he2⟩ := (mem_write_long_calls _ _).1 he
    obtain ⟨-, -, -, pre, b, heq, hpre, -, hcall⟩ := main_body_dispatched E K v e he1 he2
    rw [hcall] at hor
    obtain ⟨hx, -, -, hr, ho⟩ := write_long_call_args E K v _ _ _ a _ off hor
    rw [heq, after_trace, outcome_diagnostic_append _ _ hpre]
    apply outcome_diagnostic_dispatch
    rw [← hr, ← ho, report_with_info K hK, hx]
  refine ⟨key, int_sub_exact _ _, ?_⟩
  intro hx ho
  rw [key, hx, ho]
  decide

/-- C5 at a concrete run: `--xfer_len=500` and a device that answers
"illegal request with info" with offset 50. -/
theorem corrected_length_witness :
    outcome_diagnostic
        (main_body (E0 0 [] 17 50 0) K0 { device_name := "/dev/sg1", xfer_len := 500 }).trace =
      some "<<< device indicates 'xfer_len' should be 450 >>>\n" :=
  (corrected_length (E0 0 [] 17 50 0) K0 { device_name := "/dev/sg1", xfer_len := 500 }
    (by decide) ⟨3, 0, 0, 0, 0, some (List.replicate MAX_XFER_LEN 0xff), 500, 1, 0⟩ 50
    (Or.inl (by
      rw [main_body_fill _ _ _ (by decide) rfl rfl (by decide)]
      simp [E0, K0, dispatch, write_long_call, Result.after]))).2.2 rfl rfl

/-- C8 as stated fails: with `--16`, `--xfer_len=500` and a device that
answers "illegal request with info" with offset 50, the call goes through
the 16 byte entry point and the report of the outcome is the line with the
corrected length 450, which does not contain "16". -/
theorem diagnostic_width_counterexample :
    Event.sg_ll_write_long16 ⟨3, 0, 0, 0, 0, some (List.replicate MAX_XFER_LEN 0xff), 500, 1, 0⟩
        K0.SG_LIB_CAT_ILLEGAL_REQ_WITH_INFO 50 ∈
        (main_body (E0 0 [] 17 50 0) K0
          { device_name := "/dev/sg1", xfer_len := 500, do_16 := 1 }).trace ∧
      outcome_diagnostic (main_body (E0 0 [] 17 50 0) K0
          { device_name := "/dev/sg1", xfer_len := 500, do_16 := 1 }).trace =
        some "<<< device indicates 'xfer_len' should be 450 >>>\n" ∧
      ¬ text_contains "<<< device indicates 'xfer_len' should be 450 >>>\n" "16" := by
  have hmem : Event.sg_ll_write_long16
      ⟨3, 0, 0, 0, 0, some (List.replicate MAX_XFER_LEN 0xff), 500, 1, 0⟩
      K0.SG_LIB_CAT_ILLEGAL_REQ_WITH_INFO 50 ∈
      (main_body (E0 0 [] 17 50 0) K0
        { device_name := "/dev/sg1", xfer_len := 500, do_16 := 1 }).trace := by
    rw [main_body_fill _ _ _ (by decide) rfl rfl (by decide)]
    simp [E0, K0, dispatch, write_long_call, Result.after]
  refine ⟨hmem, ?_, by decide⟩
  rw [main_body_fill _ _ _ (by decide) rfl rfl (by decide)]
  simp [E0, K0, dispatch, write_long_call, Result.after, report, err_out, outcome_diagnostic,
    Event.is_write_long]
  decide

/-- C8 as amended: in a run whose WRITE LONG call returned a value that is
neither 0 nor `SG_LIB_CAT_ILLEGAL_REQ_WITH_INFO`, the report of the outcome
contains "16" when the call went through the 16 byte entry point and "10"
when it went through the 10 byte one; when the call returned
`SG_LIB_CAT_ILLEGAL_REQ_WITH_INFO` the report contains the corrected length
`xfer_len - offset`. -/
theorem diagnostic_names_width (E : Env) (K : SgLib) (v : Vars) (hK : K.labels_distinct) :
    (∀ a r off, Event.sg_ll_write_long16 a r off ∈ (main_body E K v).trace → r ≠ 0 →
        r ≠ K.SG_LIB_CAT_ILLEGAL_REQ_WITH_INFO →
        ∃ msg, outcome_diagnostic (main_body E K v).trace = some msg ∧ text_contains msg "16") ∧
      (∀ a r off, Event.sg_ll_write_long10 a r off ∈ (main_body E K v).trace → r ≠ 0 →
        r ≠ K.SG_LIB_CAT_ILLEGAL_REQ_WITH_INFO →
        ∃ msg, outcome_diagnostic (main_body E K v).trace = some msg ∧ text_contains msg "10") ∧
      (∀ a off,
        (Event.sg_ll_write_long10 a K.SG_LIB_CAT_ILLEGAL_REQ_WITH_INFO off ∈
            (main_body E K v).trace ∨
          Event.sg_ll_write_long16 a K.SG_LIB_CAT_ILLEGAL_REQ_WITH_INFO off ∈
            (main_body E K v).trace) →
        ∃ msg, outcome_diagnostic (main_body E K v).trace = some msg ∧
          text_contains msg (fmt_d (int_sub a.xfer_len off))) := by
  have key : ∀ a r off, (Event.sg_ll_write_long10 a r off ∈ (main_body E K v).trace ∨
      Event.sg_ll_write_long16 a r off ∈ (main_body E K v).trace) → r ≠ 0 →
      r ≠ K.SG_LIB_CAT_ILLEGAL_REQ_WITH_INFO →
      ∃ msg, outcome_diagnostic (main_body E K v).trace = some msg ∧
        text_contains msg (if v.do_16 ≠ 0 then "16" else "10") ∧
        (Event.sg_ll_write_long16 a r off ∈ (main_body E K v).trace → v.do_16 ≠ 0) ∧
        (Event.sg_ll_write_long10 a r off ∈ (main_body E K v).trace → ¬ v.do_16 ≠ 0) := by
    intro a r off h h0 h1
    obtain ⟨e, he, hor⟩ := write_long_mem _ a r off h
    obtain ⟨he1, he2⟩ := (mem_write_long_calls _ _).1 he
    obtain ⟨-, -, -, pre, b, heq, hpre, -, hcall⟩ := main_body_dispatched E K v e he1 he2
    have hcalls := write_long_calls_after_dispatch E K v
      (E.sg_cmds_open_device v.device_name 0 v.verbose) b (xfer_len_used v) pre hpre
    rw [← heq] at hcalls
    rw [hcall] at hor
    obtain ⟨-, -, -, hr, ho⟩ := write_long_call_args E K v _ _ _ a r off hor
    rw [hr] at h0 h1
    obtain ⟨s, hs, hc⟩ := report_names_width K _ (if v.do_16 ≠ 0 then "16" else "10")
      (xfer_len_used v) (write_long_call E K v (E.sg_cmds_open_device v.device_name 0 v.verbose) b
        (xfer_len_used v)).2.2 h0 h1
    refine ⟨s, ?_, hc, ?_, ?_⟩
    · rw [heq, after_trace, outcome_diagnostic_append _ _ hpre]
      exact outcome_diagnostic_dispatch E K v _ b _ s hs
    · intro hm
      have : Event.sg_ll_write_long16 a r off ∈ write_long_calls (main_body E K v).trace :=
        (mem_write_long_calls _ _).2 ⟨hm, rfl⟩
      rw [hcalls, List.mem_singleton] at this
      exact (write_long_call_do_16 E K v _ b _ a r off).1 this.symm
    · intro hm
      have : Event.sg_ll_write_long10 a r off ∈ write_long_calls (main_body E K v).trace :=
        (mem_write_long_calls _ _).2 ⟨hm, rfl⟩
      rw [hcalls, List.mem_singleton] at this
      exact (write_long_call_do_16 E K v _ b _ a r off).2 this.symm
  refine ⟨?_, ?_, ?_⟩
  · intro a r off hm h0 h1
    obtain ⟨msg, h2, h3, h4, -⟩ := key a r off (Or.inr hm) h0 h1
    rw [if_pos (h4 hm)] at h3
    exact ⟨msg, h2, h3⟩
  · intro a r off hm h0 h1
    obtain ⟨msg, h2, h3, -, h4⟩ := key a r off (Or.inl hm) h0 h1
    rw [if_neg (h4 hm)] at h3
    exact ⟨msg, h2, h3⟩
  · intro a off h
    obtain ⟨e, he, hor⟩ := write_long_mem _ a _ off h
    obtain ⟨he1, he2⟩ := (mem_write_long_calls _ _).1 he
    obtain ⟨-, -, -, pre, b, heq, hpre, -, hcall⟩ := main_body_dispatched E K v e he1 he2
    rw [hcall] at hor
    obtain ⟨hx, -, -, hr, ho⟩ := write_long_call_args E K v _ _ _ a _ off hor
    refine ⟨"<<< device indicates 'xfer_len' should be " ++ fmt_d (int_sub a.xfer_len off) ++
      " >>>\n", ?_, text_contains_mid _ (fmt_d (int_sub a.xfer_len off)) _⟩
    rw [heq, after_trace, outcome_diagnostic_append _ _ hpre]
    apply outcome_diagnostic_dispatch
    rw [← hr, ← ho, report_with_info K hK, hx]

/-- C8 as amended at a concrete run: `--16` and a device that is not ready
(`SG_LIB_CAT_NOT_READY` is 2). -/
theorem diagnostic_names_width_witness :
    ∃ msg, outcome_diagnostic (main_body (E0 0 [] 2 0 0) K0
        { device_name := "/dev/sg1", do_16 := 1 }).trace = some msg ∧ text_contains msg "16" :=
  (diagnostic_names_width (E0 0 [] 2 0 0) K0 { device_name := "/dev/sg1", do_16 := 1 }
    (by decide)).1 ⟨3, 0, 0, 0, 0, some (List.replicate MAX_XFER_LEN 0xff), 520, 1, 0⟩ 2 0
    (by
      rw [main_body_fill _ _ _ (by decide) rfl rfl (by decide)]
      simp [E0, K0, dispatch, write_long_call, Result.after])
    (by decide) (by decide)

/-- C6: in a run whose WRITE LONG call returned `r` and whose close of the
device returned `c`, `main` returns `r` when `r > 0`, `SG_LIB_CAT_OTHER` when
`r < 0`, and when `r = 0` it returns 0 if `c >= 0` and `SG_LIB_FILE_ERROR`
if `c < 0` (a non-zero status, as that constant is not 0).  So the close
changes the status of a successful command only. -/
theorem exit_status (E : Env) (K : SgLib) (v : Vars) (a : WriteLongArgs) (r off fd c : Int)
    (hcall : Event.sg_ll_write_long10 a r off ∈ (main_body E K v).trace ∨
      Event.sg_ll_write_long16 a r off ∈ (main_body E K v).trace)
    (hclose : Event.sg_cmds_close_device fd c ∈ (main_body E K v).trace) :
    (0 < r → (main_body E K v).status = r) ∧
      (r < 0 → (main_body E K v).status = K.SG_LIB_CAT_OTHER) ∧
      (r = 0 → 0 ≤ c → (main_body E K v).status = 0) ∧
      (r = 0 → c < 0 → (main_body E K v).status = K.SG_LIB_FILE_ERROR ∧
        (K.SG_LIB_FILE_ERROR ≠ 0 → (main_body E K v).status ≠ 0)) := by
  obtain ⟨e, he, hor⟩ := write_long_mem _ a r off hcall
  obtain ⟨he1, he2⟩ := (mem_write_long_calls _ _).1 he
  obtain ⟨-, -, -, pre, b, heq, -, hpre, hc⟩ := main_body_dispatched E K v e he1 he2
  rw [hc] at hor
  obtain ⟨-, -, -, hr, -⟩ := write_long_call_args E K v _ _ _ a r off hor
  rw [heq, after_trace, List.mem_append] at hclose
  have hcl : c = E.sg_cmds_close_device (E.sg_cmds_open_device v.device_name 0 v.verbose) := by
    rcases hclose with h | h
    · have := hpre _ h
      cases this
    · exact (close_device_mem_dispatch E K v _ b _ fd c h).2
  have hst : (main_body E K v).status =
      if c < 0 ∧ r = 0 then K.SG_LIB_FILE_ERROR
      else if 0 ≤ r then r else K.SG_LIB_CAT_OTHER := by
    rw [heq, after_status, dispatch_status, err_out_status, ← hr, ← hcl]
  rw [hst]
  refine ⟨?_, ?_, ?_, ?_⟩
  · intro h
    rw [if_neg (by omega), if_pos (by omega)]
  · intro h
    rw [if_neg (by omega), if_neg (by omega)]
  · intro h1 h2
    rw [if_neg (by omega), if_pos (by omega), h1]
  · intro h1 h2
    rw [if_pos ⟨h2, h1⟩]
    exact ⟨rfl, fun h => h⟩

/-- C6 at a concrete run: the command succeeds and the close fails. -/
theorem exit_status_witness :
    (main_body (E0 0 [] 0 0 (-1)) K0 { device_name := "/dev/sg1" }).status =
      K0.SG_LIB_FILE_ERROR :=
  ((exit_status (E0 0 [] 0 0 (-1)) K0 { device_name := "/dev/sg1" }
    ⟨3, 0, 0, 0, 0, some (List.replicate MAX_XFER_LEN 0xff), 520, 1, 0⟩ 0 0 3 (-1)
    (Or.inl (by
      rw [main_body_fill _ _ _ (by decide) rfl rfl (by decide)]
      simp [E0, K0, dispatch, write_long_call, Result.after]))
    (by
      rw [main_body_fill _ _ _ (by decide) rfl rfl (by decide)]
      simp [E0, K0, dispatch, write_long_call, Result.after, err_out])).2.2.2 rfl
        (by decide)).1

/-- C7: in every run of `main` in which the device was opened,
`sg_cmds_close_device` is called exactly once, whatever happens afterwards;
in every run in which it was not opened (`main` returned before the open, or
the open failed), it is called zero times. -/
theorem close_once (E : Env) (K : SgLib) (opts : List (Char × String)) (args : List String) :
    (device_opened (main E K opts args).trace →
        close_device_count (main E K opts args).trace = 1) ∧
      (¬ device_opened (main E K opts args).trace →
        close_device_count (main E K opts args).trace = 0) := by
  rcases main_paths E K opts args with h | ⟨v, h⟩
  · obtain ⟨h1, h2⟩ := closes_of_messages _ h
    exact ⟨fun ho => absurd ho h1, fun _ => h2⟩
  · rw [h]
    rcases main_body_closes E K v with ⟨h1, h2⟩ | ⟨h1, h2⟩
    · exact ⟨fun _ => h2, fun hn => absurd h1 hn⟩
    · exact ⟨fun ho => absurd ho h1, fun _ => h2⟩

/-- C9: in a run in which the device was opened: when no step of the
preparation of the payload fails (in particular when `wr_uncor` is set, as
then there is no such step), exactly one WRITE LONG call is made, through
`sg_ll_write_long16` when `do_16` is set and through `sg_ll_write_long10`
otherwise; when the `open` or the `read` of the input file fails, no WRITE
LONG call is made and `main` returns a non-zero status. -/
theorem one_invocation (E : Env) (K : SgLib) (v : Vars)
    (hopen : device_opened (main_body E K v).trace) :
    ((∀ e ∈ (main_body E K v).trace, e.is_prepare_failure = false) →
        ∃ a r off, write_long_calls (main_body E K v).trace =
          [if v.do_16 ≠ 0 then Event.sg_ll_write_long16 a r off
            else Event.sg_ll_write_long10 a r off]) ∧
      (v.wr_uncor ≠ 0 → ∀ e ∈ (main_body E K v).trace, e.is_prepare_failure = false) ∧
      ((∃ e ∈ (main_body E K v).trace, e.is_input_failure = true) →
        write_long_calls (main_body E K v).trace = [] ∧ (main_body E K v).status ≠ 0) := by
  refine ⟨?_, ?_, ?_⟩
  · intro hok
    rcases main_body_opened E K v hopen with ⟨pre, rawp, ret, h, -, ⟨e, he, hf⟩, -⟩ |
      ⟨pre, b, h, hpre, -⟩
    · have := hok e (by rw [h, after_trace]; exact List.mem_append_left _ he)
      rw [hf] at this
      cases this
    · obtain ⟨a, r, off, hcall, -, -⟩ := write_long_call_entry E K v
        (E.sg_cmds_open_device v.device_name 0 v.verbose) b (xfer_len_used v)
      exact ⟨a, r, off, by rw [h, write_long_calls_after_dispatch _ _ _ _ _ _ _ hpre, hcall]⟩
  · intro hw
    have hdev : v.device_name ≠ "" := by
      intro hd
      have h : main_body E K v =
          ⟨[Event.stderr "missing device name!\n"] ++ usage, K.SG_LIB_SYNTAX_ERROR⟩ := by
        simp only [main_body, if_pos hd]
      rw [h] at hopen
      exact (closes_of_messages _ (by simp [usage, Event.is_stderr])).1 hopen
    rw [main_body_uncor E K v hdev hw]
    intro e he
    by_cases ho : E.sg_cmds_open_device v.device_name 0 v.verbose < 0
    · rw [if_pos ho] at he
      simp only [List.mem_cons, List.mem_singleton, List.not_mem_nil, or_false] at he
      rcases he with rfl | rfl <;> rfl
    · rw [if_neg ho, after_trace, List.mem_append, List.mem_cons] at he
      rcases he with (rfl | he) | he
      · rfl
      · split_ifs at he <;> simp at he
        subst he; rfl
      · exact dispatch_not_prepare_failure E K v _ _ _ e he
  · rintro ⟨e, he, hf⟩
    rcases main_body_opened E K v hopen with ⟨pre, rawp, ret, h, hpre, -, hr⟩ |
      ⟨pre, b, h, -, hno⟩
    · have hret : ret = 1 := by
        rcases hr with hr | ⟨-, hin⟩
        · exact hr
        · have := hin e he
          rw [hf] at this
          cases this
      subst hret
      refine ⟨by rw [h, write_long_calls_after_err_out _ _ _ _ _ _ hpre], ?_⟩
      rw [h, after_status, err_out_status]
      simp
    · have := hno e he
      rw [prepare_failure_of_input_failure e hf] at this
      cases this

/-- C9 at a concrete run: `--16` on a device that opens, with no input
file. -/
theorem one_invocation_witness :
    ∃ a r off, write_long_calls (main_body (E0 0 [] 0 0 0) K0
        { device_name := "/dev/sg1", do_16 := 1 }).trace = [Event.sg_ll_write_long16 a r off] :=
  (one_invocation (E0 0 [] 0 0 0) K0 { device_name := "/dev/sg1", do_16 := 1 }
    ⟨Event.sg_cmds_open_device "/dev/sg1" 0 0 3,
      by rw [main_body_fill _ _ _ (by decide) rfl rfl (by decide)]; simp [E0, Result.after],
      rfl⟩).1
    (by
      rw [main_body_fill _ _ _ (by decide) rfl rfl (by decide)]
      simp [E0, K0, dispatch, write_long_call, Result.after, report, err_out,
        Event.is_prepare_failure, Event.is_input_failure])

/-- C10 fails on the code: `--xfer_len=-2 /dev/sg1`, with `sg_get_num`
delivering `-2`, passes the check of the transfer length (only the upper bound
is checked), and the WRITE LONG call is handed the transfer length `-2`; with
`--in=data.bin` added, `read` is called with the count `-2`. -/
theorem negative_xfer_len_dispatched :
    (∃ a ret off, Event.sg_ll_write_long10 a ret off ∈
          (main (E0 (-2) [] 0 0 0) K0 [('x', "-2")] ["/dev/sg1"]).trace ∧
        a.xfer_len = -2 ∧ ¬ (0 ≤ a.xfer_len)) ∧
      (∃ r, Event.read 4 (-2) r ∈
        (main (E0 (-2) [] 0 0 0) K0 [('x', "-2"), ('i', "data.bin")] ["/dev/sg1"]).trace) := by
  have hmain1 : main (E0 (-2) [] 0 0 0) K0 [('x', "-2")] ["/dev/sg1"] =
      main_body (E0 (-2) [] 0 0 0) K0 { xfer_len := -2, device_name := "/dev/sg1" } := by
    simp [main, main_options, main_args, E0, take_dev_sg1]
  have hmain2 : main (E0 (-2) [] 0 0 0) K0 [('x', "-2"), ('i', "data.bin")] ["/dev/sg1"] =
      main_body (E0 (-2) [] 0 0 0) K0
        { xfer_len := -2, file_name := "data.bin", device_name := "/dev/sg1" } := by
    simp [main, main_options, main_args, E0, take_data_bin, take_dev_sg1]
  have h1 : ¬ ((MAX_XFER_LEN : Int) ≤ -2) := by decide
  have h2 : ¬ ("data.bin" = "") := by decide
  have h3 : ¬ ("data.bin" = "-") := by decide
  have h4 : ¬ ("/dev/sg1" = "") := by decide
  refine ⟨⟨⟨3, 0, 0, 0, 0, some (List.replicate MAX_XFER_LEN 0xff), -2, 1, 0⟩, 0, 0, ?_, rfl,
    by decide⟩, ⟨none, ?_⟩⟩
  · rw [hmain1, main_body_fill _ _ _ (by decide) rfl rfl (by decide)]
    simp [E0, K0, dispatch, write_long_call, Result.after]
  · rw [hmain2]
    simp [main_body, prepare, read_input, Result.after, E0, h1, h2, h3, h4]

end SgWriteLong
